import Mathlib

/-!
# Live-Tracker: geofencing alert engine of `GroupMap.jsx`

A shallow embedding of the client-side geofence evaluator, the alert queue and the
haversine distance of `src/src/components/GroupMap.jsx`.

Conventions of the embedding:
* JavaScript numbers that hold coordinates and distances are exact reals (`ℝ`);
  clock values (`Date.now()`) and stored timestamps are integers of milliseconds (`Int`).
* React state is passed explicitly; a functional updater `setX(prev => f prev)` is the
  function `f` applied to the state it receives.
* The JavaScript `Map` held in `alertHistory` is a function `String → Option Int`;
  `get` is application (`none` for `undefined`) and `set` is `Function.update`.
-/

namespace LiveTracker

/-! ## Data model -/

/-- One entry of the `locations` array returned by `getGroupLocations`. -/
structure MemberLocation where
  memberId : String
  displayName : String
  lat : ℝ
  lng : ℝ
  updatedAt : Int
  sharingEnabled : Bool

/-- The `myLocation` state once a fix has arrived: `{ lat, lng }`. -/
structure SelfPosition where
  lat : ℝ
  lng : ℝ

/-- The object pushed on `newAlerts` (GroupMap.jsx lines 361-366). -/
structure AlertRecord where
  memberId : String
  displayName : String
  distance : Int
  timestamp : Int

/-- The options object given to `new Notification(title, options)` together with its title. -/
structure NotificationRequest where
  title : String
  body : String
  icon : String
  tag : String

/-- The `alertHistory` state: a `Map` from member id to the clock value of the last alert. -/
abbrev AlertHistory := String → Option Int

/-- The initial `alertHistory` state, `new Map()`. -/
def emptyHistory : AlertHistory := fun _ => none

/-! ## Haversine distance -/

/-- `Math.atan2(y, x)` over the reals: the angle in `(-π, π]` of the point `(x, y)`,
with `atan2 0 0 = 0`. -/
noncomputable def atan2 (y x : ℝ) : ℝ := Complex.arg ⟨x, y⟩

/-- `Math.round(x)`: the nearest integer, halves rounded up. -/
noncomputable def mathRound (x : ℝ) : Int := Int.floor (x + 1 / 2)

/-- The formula of `calculateDistance` (GroupMap.jsx lines 133-146), evaluated in exact real
arithmetic. The engine evaluates the same formula in IEEE doubles, so its result is this
value up to rounding, and is `NaN` where rounding brings `a` above 1; the evaluation on the
computed distance is `geofencePassWith` below. -/
noncomputable def calculateDistance (lat1 lng1 lat2 lng2 : ℝ) : ℝ :=
  let R : ℝ := 6371000
  let φ1 := lat1 * Real.pi / 180
  let φ2 := lat2 * Real.pi / 180
  let Δφ := (lat2 - lat1) * Real.pi / 180
  let Δl := (lng2 - lng1) * Real.pi / 180
  let a := Real.sin (Δφ / 2) * Real.sin (Δφ / 2) +
    Real.cos φ1 * Real.cos φ2 *
    Real.sin (Δl / 2) * Real.sin (Δl / 2)
  let c := 2 * atan2 (Real.sqrt a) (Real.sqrt (1 - a))
  R * c

/-! ## Geofence evaluation -/

/-- The accumulated effects of one run of the geofencing `forEach`: the local array
`newAlerts`, the `alertHistory` state after the queued `setAlertHistory` updaters, and the
notifications constructed so far. -/
structure GeofencePass where
  newAlerts : List AlertRecord
  alertHistory : AlertHistory
  notifications : List NotificationRequest

/-- The record pushed for `location` at clock value `now` when it is `distance` away. -/
noncomputable def alertRecord (now : Int) (distance : ℝ) (location : MemberLocation) :
    AlertRecord :=
  { memberId := location.memberId
    displayName := location.displayName
    distance := mathRound distance
    timestamp := now }

/-- The notification constructed for `location` when it is `distance` away
(GroupMap.jsx lines 377-381). -/
noncomputable def alertNotification (distance : ℝ) (location : MemberLocation) :
    NotificationRequest :=
  { title := "⚠️ Geofence Alert"
    body := location.displayName ++ " has left the tracking range! (" ++
      toString (mathRound distance) ++ "m away)"
    icon := "/vite.svg"
    tag := "geofence-" ++ location.memberId }

/-- The body of `locations.forEach(location => ...)` (GroupMap.jsx lines 343-385).
`alertHistory` is the state value captured by the effect closure; the updaters passed to
`setAlertHistory` act on the accumulated state `acc.alertHistory`. -/
noncomputable def geofenceVisit (memberId : String) (myLocation : SelfPosition)
    (rangeRadius : ℝ) (alertHistory : AlertHistory) (notificationPermission : String)
    (now : Int) (acc : GeofencePass) (location : MemberLocation) : GeofencePass :=
  if location.memberId = memberId ∨ location.sharingEnabled = false then acc
  else
    let distance := calculateDistance myLocation.lat myLocation.lng location.lat location.lng
    if distance > rangeRadius then
      let lastAlertTime := (alertHistory location.memberId).getD 0
      let timeSinceLastAlert := now - lastAlertTime
      if timeSinceLastAlert > 2 * 60 * 1000 then
        { newAlerts := acc.newAlerts ++ [alertRecord now distance location]
          alertHistory := Function.update acc.alertHistory location.memberId (some now)
          notifications :=
            if notificationPermission = "granted" then
              acc.notifications ++ [alertNotification distance location]
            else acc.notifications }
      else acc
    else acc

/-- The geofencing effect up to the queue update (GroupMap.jsx lines 338-385): nothing
happens without a self position or with an empty snapshot, otherwise every entry of
`locations` is visited in order. -/
noncomputable def geofencePass (memberId : String) (myLocation : Option SelfPosition)
    (locations : List MemberLocation) (rangeRadius : ℝ) (alertHistory : AlertHistory)
    (notificationPermission : String) (now : Int) : GeofencePass :=
  match myLocation with
  | none => { newAlerts := [], alertHistory := alertHistory, notifications := [] }
  | some pos =>
    if locations.length = 0 then
      { newAlerts := [], alertHistory := alertHistory, notifications := [] }
    else
      locations.foldl
        (geofenceVisit memberId pos rangeRadius alertHistory notificationPermission now)
        { newAlerts := [], alertHistory := alertHistory, notifications := [] }

/-- The queue update of the effect (GroupMap.jsx lines 387-389):
`if (newAlerts.length > 0) setGeofenceAlerts(prev => [...newAlerts, ...prev].slice(0, 5))`. -/
def pushAlerts (newAlerts prev : List AlertRecord) : List AlertRecord :=
  if newAlerts.length > 0 then (newAlerts ++ prev).take 5 else prev

/-- The updater of the dismiss button of the alert rendered at `index`
(GroupMap.jsx line 582): `prev.filter((_, i) => i !== index)`. -/
def dismissAlert (index : Nat) (prev : List AlertRecord) : List AlertRecord :=
  (prev.enum.filter (fun p => p.1 ≠ index)).map Prod.snd

/-- The two pieces of view state the alert engine owns. -/
structure AlertState where
  geofenceAlerts : List AlertRecord
  alertHistory : AlertHistory

/-- The state at view entry: `useState([])` and `useState(new Map())`. -/
def initialAlertState : AlertState :=
  { geofenceAlerts := [], alertHistory := emptyHistory }

/-- What happens to the alert state: a run of the geofencing effect with the values it
reads (`myLocation`, `locations`, `rangeRadius`, `notificationPermission`, `Date.now()`),
or a click on the dismiss button of the alert at `index`. -/
inductive AlertEvent where
  | evaluate (myLocation : Option SelfPosition) (locations : List MemberLocation)
      (rangeRadius : ℝ) (notificationPermission : String) (now : Int)
  | dismiss (index : Nat)

/-- The records one event emits: the `newAlerts` of an evaluation, nothing for a dismissal. -/
noncomputable def emittedBy (memberId : String) (s : AlertState) : AlertEvent → List AlertRecord
  | .evaluate myLocation locations rangeRadius notificationPermission now =>
    (geofencePass memberId myLocation locations rangeRadius s.alertHistory
      notificationPermission now).newAlerts
  | .dismiss _ => []

/-- The alert state after one event. -/
noncomputable def stepAlert (memberId : String) (s : AlertState) : AlertEvent → AlertState
  | .evaluate myLocation locations rangeRadius notificationPermission now =>
    let pass := geofencePass memberId myLocation locations rangeRadius s.alertHistory
      notificationPermission now
    { geofenceAlerts := pushAlerts pass.newAlerts s.geofenceAlerts
      alertHistory := pass.alertHistory }
  | .dismiss index =>
    { geofenceAlerts := dismissAlert index s.geofenceAlerts
      alertHistory := s.alertHistory }

/-- The alert state after a sequence of events, oldest first. -/
noncomputable def runAlerts (memberId : String) (s : AlertState) :
    List AlertEvent → AlertState
  | [] => s
  | e :: es => runAlerts memberId (stepAlert memberId s e) es

/-- Every record emitted along a sequence of events, in the order of emission. -/
noncomputable def emittedAlong (memberId : String) (s : AlertState) :
    List AlertEvent → List AlertRecord
  | [] => []
  | e :: es => emittedBy memberId s e ++ emittedAlong memberId (stepAlert memberId s e) es

/-- The clock value an event reads, if it reads one. -/
def AlertEvent.clock : AlertEvent → Option Int
  | .evaluate _ _ _ _ now => some now
  | .dismiss _ => none

/-! ## Predicates and sample data used in the statements -/

/-- The test the effect applies to one snapshot entry `m`, read off the three nested
conditions of `geofenceVisit`: `m` is not the local member, `m` is sharing, `m` is farther
than `rangeRadius`, and more than 120000 ms separate `now` from the stored clock value of
the last alert for `m`, a missing entry counting as the clock value 0. -/
def alertDue (memberId : String) (myLocation : SelfPosition) (rangeRadius : ℝ)
    (alertHistory : AlertHistory) (now : Int) (m : MemberLocation) : Prop :=
  m.memberId ≠ memberId ∧ m.sharingEnabled = true ∧
    rangeRadius < calculateDistance myLocation.lat myLocation.lng m.lat m.lng ∧
    120000 < now - (alertHistory m.memberId).getD 0

noncomputable instance alertDueDecidable (memberId : String) (myLocation : SelfPosition)
    (rangeRadius : ℝ) (alertHistory : AlertHistory) (now : Int) (m : MemberLocation) :
    Decidable (alertDue memberId myLocation rangeRadius alertHistory now m) := by
  unfold alertDue; infer_instance

/-- Every snapshot an evaluation of the event reads has pairwise distinct member ids. -/
def AlertEvent.UniqueIds : AlertEvent → Prop
  | .evaluate _ locations _ _ _ => (locations.map MemberLocation.memberId).Nodup
  | .dismiss _ => True

/-- Latitude, in degrees, of the point `d` metres due north of the point `(0, 0)`. -/
noncomputable def metresNorth (d : ℝ) : ℝ := d * 180 / (6371000 * Real.pi)

/-- The self position `(0, 0)` used in the concrete scenarios. -/
def origin : SelfPosition := { lat := 0, lng := 0 }

/-- A snapshot entry located `d` metres due north of `origin`. -/
noncomputable def memberNorth (memberId displayName : String) (d : ℝ) (sharing : Bool) :
    MemberLocation :=
  { memberId := memberId
    displayName := displayName
    lat := metresNorth d
    lng := 0
    updatedAt := 0
    sharingEnabled := sharing }

/-- A sample session of one remote member 150 m away with `rangeRadius = 100`: an alert, an
evaluation 120000 ms later, a dismissal, and an evaluation 120001 ms after the alert. -/
noncomputable def sampleRun : List AlertEvent :=
  [ .evaluate (some origin) [memberNorth "m1" "Ann" 150 true] 100 "granted" 200000,
    .evaluate (some origin) [memberNorth "m1" "Ann" 150 true] 100 "granted" 320000,
    .dismiss 0,
    .evaluate (some origin) [memberNorth "m1" "Ann" 150 true] 100 "granted" 320001 ]

/-- A state with two queued alerts for "m1" and "m2", both alerted at clock value 200000. -/
def sampleState : AlertState :=
  { geofenceAlerts :=
      [ { memberId := "m1", displayName := "Ann", distance := 150, timestamp := 200000 },
        { memberId := "m2", displayName := "Bob", distance := 180, timestamp := 200000 } ]
    alertHistory := fun x => if x = "m1" ∨ x = "m2" then some 200000 else none }


/-! ## Countdown and relative-time formatting -/

/-- `formatCountdown` (GroupMap.jsx lines 149-169) with the `currentTime` state it reads.
`expiresAt = none` is a null (falsy) value; `some expiry` is a value whose
`new Date(expiresAt).getTime()` is `expiry`. In the branch where they are computed `diff` is
positive, so `Math.floor(x / k)` and `x % k` are the integer quotient and remainder. -/
def formatCountdown (currentTime : Int) (expiresAt : Option Int) : Option String :=
  match expiresAt with
  | none => none
  | some expiry =>
    let now := currentTime
    let diff := expiry - now
    if diff ≤ 0 then some "Expired"
    else
      let hours := diff / (1000 * 60 * 60)
      let minutes := (diff % (1000 * 60 * 60)) / (1000 * 60)
      let seconds := (diff % (1000 * 60)) / 1000
      if hours > 0 then
        some (toString hours ++ "h " ++ toString minutes ++ "m")
      else if minutes > 0 then
        some (toString minutes ++ "m " ++ toString seconds ++ "s")
      else
        some (toString seconds ++ "s")

/-- `getRelativeTime` (GroupMap.jsx lines 172-182) with the `currentTime` state it reads;
`timestamp` stands for `new Date(timestamp).getTime()`. `Math.floor(x / 1000)` is the floor
division `Int.fdiv`. -/
def getRelativeTime (currentTime : Int) (timestamp : Int) : String :=
  let now := currentTime
  let diff := Int.fdiv (now - timestamp) 1000
  if diff < 5 then "Just now"
  else if diff < 60 then toString diff ++ " seconds ago"
  else if diff < 120 then "1 minute ago"
  else if diff < 3600 then toString (Int.fdiv diff 60) ++ " minutes ago"
  else if diff < 7200 then "1 hour ago"
  else toString (Int.fdiv diff 3600) ++ " hours ago"

/-! ## View state, timers and requests -/

/-- The `permissionState` state: `'pending'`, `'granted'` or `'denied'`. -/
inductive PermissionState where
  | pending
  | granted
  | denied
  deriving DecidableEq

/-- A call `setTimeout(() => navigate(path), delay)`. -/
structure NavigationTimer where
  delay : Nat
  path : String
  deriving DecidableEq

/-- The request `updateLocation` sends (api.js lines 39-49): a `POST` to
`/groups/{groupId}/locations` with the JSON body `{ memberId, lat, lng, sharingEnabled }`. -/
structure LocationRequest where
  method : String
  url : String
  memberId : String
  lat : ℝ
  lng : ℝ
  sharingEnabled : Bool

/-- `API_BASE_URL` (api.js line 3). -/
def API_BASE_URL : String := "http://localhost:3000/api"

/-- `updateLocation(groupId, memberId, lat, lng, sharingEnabled)` up to the `fetch` call. -/
def updateLocation (groupId memberId : String) (lat lng : ℝ) (sharingEnabled : Bool) :
    LocationRequest :=
  { method := "POST"
    url := API_BASE_URL ++ "/groups/" ++ groupId ++ "/locations"
    memberId := memberId
    lat := lat
    lng := lng
    sharingEnabled := sharingEnabled }

/-- The state of the `GroupMap` view that the sync loop, the position watch and the expiry
check write, together with the outside calls they have issued, oldest first:
`navigations` for `setTimeout(() => navigate('/'), 2000)`, `requests` for `updateLocation`,
`consoleErrors` for `console.error`. -/
structure MapView where
  locations : List MemberLocation
  myLocation : Option SelfPosition
  sharingEnabled : Bool
  permissionState : PermissionState
  error : String
  loading : Bool
  navigations : List NavigationTimer
  requests : List LocationRequest
  consoleErrors : List String

/-- The view at mount: the `useState` initial values and no outside call yet. -/
def initialMapView : MapView :=
  { locations := []
    myLocation := none
    sharingEnabled := true
    permissionState := PermissionState.pending
    error := ""
    loading := true
    navigations := []
    requests := []
    consoleErrors := [] }

/-- The expiry-check effect (GroupMap.jsx lines 324-334), run with the `expiresAt` and
`currentTime` states. -/
def expiryCheck (expiresAt : Option Int) (currentTime : Int) (v : MapView) : MapView :=
  match expiresAt with
  | none => v
  | some expiry =>
    let now := currentTime
    if now ≥ expiry then
      { v with
        error := "This group has expired."
        navigations := v.navigations ++ [{ delay := 2000, path := "/" }] }
    else v

/-- The view after the expiry check has run at each of the clock values `ticks`, in order:
every tick of the one-second timer sets `currentTime`, which re-runs the effect. -/
def expiryTicks (expiresAt : Option Int) (ticks : List Int) (v : MapView) : MapView :=
  ticks.foldl (fun w t => expiryCheck expiresAt t w) v

/-- `haystack.includes(needle)` on the characters of two strings. -/
def includesChars (needle : List Char) : List Char → Bool
  | [] => needle.isEmpty
  | c :: cs => needle.isPrefixOf (c :: cs) || includesChars needle cs

/-- `s.includes(t)` for strings. -/
def jsIncludes (s t : String) : Bool := includesChars t.data s.data

/-- The outcome of `await getGroupLocations(groupId)`: the `locations` of the response, or a
thrown `Error` with its message. -/
inductive PollResult where
  | success (groupLocations : List MemberLocation)
  | failure (message : String)

/-- The body of `fetchLocations` after the `await` (GroupMap.jsx lines 279-288). -/
def fetchLocations (result : PollResult) (v : MapView) : MapView :=
  match result with
  | .success groupLocations => { v with locations := groupLocations }
  | .failure message =>
    let logged := { v with
      consoleErrors := v.consoleErrors ++ ["Failed to fetch locations: " ++ message] }
    if jsIncludes message "not found" then
      { logged with
        error := "Group not found or expired. Redirecting..."
        navigations := logged.navigations ++ [{ delay := 2000, path := "/" }] }
    else logged

/-- The view after a sequence of completed fetches, in order of completion. -/
def fetchAll (results : List PollResult) (v : MapView) : MapView :=
  results.foldl (fun w r => fetchLocations r w) v

/-- The success callback of `watchPosition` (GroupMap.jsx lines 196-208), with the
`sharingEnabled` value of the render that installed the watch, which is the state value. -/
def onPositionFix (groupId memberId : String) (latitude longitude : ℝ) (v : MapView) :
    MapView :=
  let v1 := { v with
    myLocation := some { lat := latitude, lng := longitude }
    permissionState := PermissionState.granted
    loading := false }
  if v1.sharingEnabled then
    { v1 with requests := v1.requests ++ [updateLocation groupId memberId latitude longitude true] }
  else v1

/-- The `.catch` handler of the position report (GroupMap.jsx lines 204-206). -/
def onReportFailure (message : String) (v : MapView) : MapView :=
  { v with consoleErrors := v.consoleErrors ++ ["Failed to update location: " ++ message] }

/-- The error callback of `watchPosition` (GroupMap.jsx lines 209-221); the codes are
`PERMISSION_DENIED = 1`, `POSITION_UNAVAILABLE = 2`, `TIMEOUT = 3`. -/
def onPositionError (code : Nat) (v : MapView) : MapView :=
  let v1 := { v with
    consoleErrors := v.consoleErrors ++ ["Geolocation error"]
    permissionState := PermissionState.denied
    loading := false }
  if code = 1 then
    { v1 with error := "Location permission denied. Please enable location access to use this app." }
  else if code = 2 then
    { v1 with error := "Location information unavailable." }
  else if code = 3 then
    { v1 with error := "Location request timed out." }
  else v1

/-- The start of the geolocation effect (GroupMap.jsx lines 186-192); `supported` is
`navigator.geolocation` being present. With support the effect only installs the watch. -/
def geolocationEffect (supported : Bool) (v : MapView) : MapView :=
  if !supported then
    { v with
      error := "Geolocation is not supported by your browser"
      permissionState := PermissionState.denied
      loading := false }
  else v

/-- What can happen to the position-acquisition state. -/
inductive PositionEvent where
  | mount
  | fix (latitude longitude : ℝ)
  | error (code : Nat)
  | toggleSharing
  | reportFailed (message : String)

/-- One event on the view: mounting runs the geolocation effect; the sharing button runs
`setSharingEnabled(!sharingEnabled)` and, `sharingEnabled` being a dependency of the
geolocation effect, runs that effect again. -/
def stepPosition (supported : Bool) (groupId memberId : String) (v : MapView) :
    PositionEvent → MapView
  | .mount => geolocationEffect supported v
  | .fix latitude longitude => onPositionFix groupId memberId latitude longitude v
  | .error code => onPositionError code v
  | .toggleSharing => geolocationEffect supported { v with sharingEnabled := !v.sharingEnabled }
  | .reportFailed message => onReportFailure message v

/-- The view after a sequence of position events. -/
def runPosition (supported : Bool) (groupId memberId : String) (v : MapView) :
    List PositionEvent → MapView
  | [] => v
  | e :: es => runPosition supported groupId memberId (stepPosition supported groupId memberId v e) es

/-! ## Teardown -/

/-- A cancel call made by a cleanup. -/
inductive CancelCall where
  | clearWatch (id : Nat)
  | clearInterval (id : Nat)
  deriving DecidableEq

/-- The two refs the cleanups read and write, the `timer` constant captured by the cleanup
of the clock effect, and the cancel calls made so far, oldest first. `intervalRef` holds the
id of the poll timer; ids returned by `setInterval` are positive. -/
structure Resources where
  watchIdRef : Option Nat
  intervalRef : Option Nat
  timer : Nat
  calls : List CancelCall

/-- Cleanup of the geolocation effect (GroupMap.jsx lines 229-233). When geolocation is
unsupported the effect registers no cleanup and `watchIdRef` is null, which this function
leaves alone as well. -/
def geolocationCleanup (r : Resources) : Resources :=
  match r.watchIdRef with
  | some id => { r with calls := r.calls ++ [CancelCall.clearWatch id] }
  | none => r

/-- Cleanup of the clock effect (GroupMap.jsx line 242): `clearInterval(timer)`. -/
def clockCleanup (r : Resources) : Resources :=
  { r with calls := r.calls ++ [CancelCall.clearInterval r.timer] }

/-- The unmount cleanup effect (GroupMap.jsx lines 260-271). -/
def unmountCleanup (r : Resources) : Resources :=
  let r1 :=
    match r.watchIdRef with
    | some id => { r with calls := r.calls ++ [CancelCall.clearWatch id], watchIdRef := none }
    | none => r
  match r1.intervalRef with
  | some id =>
    if id ≠ 0 then
      { r1 with calls := r1.calls ++ [CancelCall.clearInterval id], intervalRef := none }
    else r1
  | none => r1

/-- Cleanup of the fetch effect (GroupMap.jsx lines 297-301). -/
def fetchCleanup (r : Resources) : Resources :=
  match r.intervalRef with
  | some id =>
    if id ≠ 0 then { r with calls := r.calls ++ [CancelCall.clearInterval id] } else r
  | none => r

/-- Unmounting runs the cleanups in the order the effects are declared in the component:
geolocation, clock, unmount cleanup, fetch. -/
def teardown (r : Resources) : Resources :=
  fetchCleanup (unmountCleanup (clockCleanup (geolocationCleanup r)))

/-- The resources of a mounted view with an active watch `watchId`, poll timer `pollId` and
clock timer `clockId`, before any cancel call. -/
def mounted (watchId pollId clockId : Nat) : Resources :=
  { watchIdRef := some watchId, intervalRef := some pollId, timer := clockId, calls := [] }

/-- The classification the catch block applies: a failure whose message includes
`'not found'`. -/
def PollResult.isNotFound : PollResult → Bool
  | .success _ => false
  | .failure message => jsIncludes message "not found"

/-! ## Response handling (api.js) -/

/-- A parsed JSON value, as `response.json()` resolves to: numbers are the values of the
doubles they parse to, and an object is the list of its own properties, with distinct keys. -/
inductive Json where
  | null
  | bool (b : Bool)
  | number (x : ℚ)
  | string (s : String)
  | array (items : List Json)
  | object (fields : List (String × Json))

/-- What `handleResponse` can throw: the rejection of `response.json()` (a `SyntaxError` for
a body that is not JSON) with its reason, the `TypeError` of reading a property of `null`,
or `new Error(argument)`. -/
inductive Thrown where
  | jsonRejection (reason : String)
  | typeError
  | error (argument : Json)

/-- The property read `data[key]` for the keys `success` and `error`: a `TypeError` on
`null`, the own property of an object or `undefined` (`none`) when it has none, and
`undefined` on every other value. -/
def Json.field (data : Json) (key : String) : Except Thrown (Option Json) :=
  match data with
  | .null => Except.error Thrown.typeError
  | .object fields => Except.ok (fields.lookup key)
  | _ => Except.ok none

/-- JavaScript truthiness of a property value: `undefined`, `null`, `false`, `0` and `''`
are falsy, everything else, arrays and objects included, is truthy. -/
def truthy : Option Json → Bool
  | none => false
  | some .null => false
  | some (.bool b) => b
  | some (.number x) => decide (x ≠ 0)
  | some (.string s) => decide (s ≠ "")
  | some (.array _) => true
  | some (.object _) => true

/-- The value of `data.error || 'Request failed'`. -/
def errorArgument (error : Option Json) : Json :=
  match error with
  | some v => if truthy (some v) then v else Json.string "Request failed"
  | none => Json.string "Request failed"

/-- `handleResponse` (api.js lines 5-13). `ok` is `response.ok` and `body` is the outcome of
`await response.json()`: its rejection reason, or the parsed value. `!response.ok ||
!data.success` reads `data.success` only when the response is ok. -/
def handleResponse (ok : Bool) (body : Except String Json) : Except Thrown Json :=
  match body with
  | .error reason => Except.error (Thrown.jsonRejection reason)
  | .ok data =>
    let failed : Except Thrown Bool :=
      if !ok then Except.ok true
      else
        match data.field "success" with
        | .error e => Except.error e
        | .ok success => Except.ok (!truthy success)
    match failed with
    | .error e => Except.error e
    | .ok true =>
      match data.field "error" with
      | .error e => Except.error e
      | .ok error => Except.error (Thrown.error (errorArgument error))
    | .ok false => Except.ok data

/-- The `message` of a thrown value where this development models the string conversion
`new Error(argument)` applies: a string is its own message, a boolean is 'true' or 'false',
and an integer of magnitude below 10^21 is its decimal numeral. -/
def Thrown.message : Thrown → Option String
  | .error (.string s) => some s
  | .error (.bool b) => some (if b then "true" else "false")
  | .error (.number x) =>
    if x.den = 1 ∧ x.num.natAbs < 10 ^ 21 then some (toString x.num) else none
  | _ => none

/-! ## The position watch across a sharing toggle -/

/-- A call on `navigator.geolocation`: `watchPosition` with the id it returned and the
`sharingEnabled` value its success callback captured, or `clearWatch`. -/
inductive WatchCall where
  | watchPosition (id : Nat) (forwards : Bool)
  | clearWatch (id : Nat)
  deriving DecidableEq

/-- The `sharingEnabled` state, `watchIdRef` and the geolocation calls made so far. -/
structure PositionWatch where
  sharingEnabled : Bool
  watchIdRef : Option Nat
  calls : List WatchCall

/-- The geolocation effect with geolocation supported (GroupMap.jsx lines 195-227):
`watchIdRef.current = navigator.geolocation.watchPosition(...)`, where `freshId` is the id
the browser returns. -/
def watchEffect (freshId : Nat) (w : PositionWatch) : PositionWatch :=
  { w with
    watchIdRef := some freshId
    calls := w.calls ++ [WatchCall.watchPosition freshId w.sharingEnabled] }

/-- The cleanup of the geolocation effect (GroupMap.jsx lines 229-233). -/
def watchCleanup (w : PositionWatch) : PositionWatch :=
  match w.watchIdRef with
  | some id => { w with calls := w.calls ++ [WatchCall.clearWatch id] }
  | none => w

/-- A click on the sharing button (GroupMap.jsx line 494): `setSharingEnabled(!sharingEnabled)`;
`sharingEnabled` is in the dependency array of the geolocation effect (line 234), so the
cleanup of the previous run and then the effect run again. -/
def toggleSharing (freshId : Nat) (w : PositionWatch) : PositionWatch :=
  watchEffect freshId (watchCleanup { w with sharingEnabled := !w.sharingEnabled })

/-! ## Snapshots that differ in `updatedAt`, paused members -/

/-- The entry with its `updatedAt` replaced by `t`. -/
def MemberLocation.withUpdatedAt (l : MemberLocation) (t : Int) : MemberLocation :=
  { l with updatedAt := t }

/-- Two snapshots differ at most in the `updatedAt` values of their entries. -/
def SameUpToUpdatedAt (locs1 locs2 : List MemberLocation) : Prop :=
  locs1.map (fun l => l.withUpdatedAt 0) = locs2.map (fun l => l.withUpdatedAt 0)

/-- In every snapshot the event evaluates, each entry of member `x` has
`sharingEnabled = false`. -/
def AlertEvent.PausedFor (x : String) : AlertEvent → Prop
  | .evaluate _ locations _ _ _ => ∀ l ∈ locations, l.memberId = x → l.sharingEnabled = false
  | .dismiss _ => True

/-! ## Map display -/

/-- `MEMBER_COLORS` (GroupMap.jsx lines 20-33). -/
def MEMBER_COLORS : List String :=
  ["#FF6B6B", "#4ECDC4", "#45B7D1", "#FFA07A", "#98D8C8", "#F7DC6F",
   "#BB8FCE", "#85C1E2", "#F8B739", "#52C77D", "#FF85A2", "#95E1D3"]

/-- The props of one rendered `<Marker>` (GroupMap.jsx lines 790-794). -/
structure MarkerView where
  key : String
  position : ℝ × ℝ
  displayName : String
  color : String
  isCurrentUser : Bool

/-- The callback of `locations.map((location, index) => ...)` that renders the markers
(GroupMap.jsx lines 780-808): `null` for a paused member, a marker otherwise. -/
def renderMarker (memberId : String) (index : Nat) (location : MemberLocation) :
    Option MarkerView :=
  if !location.sharingEnabled then none
  else
    some
      { key := location.memberId
        position := (location.lat, location.lng)
        displayName := location.displayName
        color := MEMBER_COLORS.getD (index % MEMBER_COLORS.length) ""
        isCurrentUser := decide (location.memberId = memberId) }

/-- The markers on the map: the non-null results of `renderMarker`, in snapshot order. -/
def renderMarkers (memberId : String) (locations : List MemberLocation) : List MarkerView :=
  locations.enum.filterMap (fun p => renderMarker memberId p.1 p.2)

/-- `AutoFitBounds` (GroupMap.jsx lines 88-102): the positions given to `L.latLngBounds` for
`map.fitBounds`, or `none` when the effect does not call `fitBounds`. -/
def AutoFitBounds (locations : List MemberLocation) : Option (List (ℝ × ℝ)) :=
  if locations.length > 0 then some (locations.map (fun loc => (loc.lat, loc.lng)))
  else none

/-- The call site `<AutoFitBounds locations={locations} />` (GroupMap.jsx line 810): the
component receives the `locations` state as it is. -/
def fitBoundsPositions (locations : List MemberLocation) : Option (List (ℝ × ℝ)) :=
  AutoFitBounds locations

/-! ## Completions of overlapping fetches -/

/-- A completed fetch, labelled with the position of its issue among the fetches of the
poll; `fetchLocations` never reads the label. -/
structure Completion where
  issued : Nat
  result : PollResult

/-- The view after the completions `cs` have arrived in this order. -/
def completeAll (cs : List Completion) (v : MapView) : MapView :=
  fetchAll (cs.map Completion.result) v

/-! ## Identity store (identity.js) -/

/-- The browser `localStorage` as explicit state: `getItem` is application. -/
abbrev LocalStorage := String → Option String

/-- `localStorage.setItem(key, value)`. -/
def setItem (store : LocalStorage) (key value : String) : LocalStorage :=
  Function.update store key (some value)

/-- `MEMBER_ID_KEY` (identity.js line 3). -/
def MEMBER_ID_KEY : String := "location_tracker_member_id"

/-- `DISPLAY_NAME_KEY` (identity.js line 4). -/
def DISPLAY_NAME_KEY : String := "location_tracker_display_name"

/-- `generateMemberId` (identity.js lines 6-8); `now` is `Date.now()` and `random` is
`Math.random().toString(36).substr(2, 9)`. -/
def generateMemberId (now : Int) (random : String) : String :=
  "member_" ++ toString now ++ "_" ++ random

/-- `!memberId` for the result of `getItem`: true for `null` and for the empty string. -/
def itemFalsy : Option String → Bool
  | none => true
  | some s => decide (s = "")

/-- `getMemberId` (identity.js lines 10-19): the returned id and the store afterwards. -/
def getMemberId (now : Int) (random : String) (store : LocalStorage) : String × LocalStorage :=
  let memberId := store MEMBER_ID_KEY
  if itemFalsy memberId then
    let generated := generateMemberId now random
    (generated, setItem store MEMBER_ID_KEY generated)
  else
    (memberId.getD "", store)

/-- `getDisplayName` (identity.js lines 21-23). -/
def getDisplayName (store : LocalStorage) : String :=
  match store DISPLAY_NAME_KEY with
  | some s => if s ≠ "" then s else ""
  | none => ""

/-- `setDisplayName` (identity.js lines 25-27). -/
def setDisplayName (name : String) (store : LocalStorage) : LocalStorage :=
  setItem store DISPLAY_NAME_KEY name

/-! ## Geofence evaluation on the distance the engine computes -/

/-- The value a call of `calculateDistance` has in the JavaScript engine, which evaluates the
formula in IEEE doubles: `NaN` (rounding can bring `a` above 1, and then `Math.sqrt(1 - a)`
is `NaN`), or a finite double, which is a real number. -/
inductive JsNumber where
  | nan
  | real (x : ℝ)

/-- The comparison `d > r` of a computed number with a real: false for `NaN`. -/
def JsNumber.exceeds (d : JsNumber) (r : ℝ) : Prop :=
  match d with
  | .nan => False
  | .real x => x > r

noncomputable instance JsNumber.exceedsDecidable (d : JsNumber) (r : ℝ) :
    Decidable (d.exceeds r) := by
  cases d <;> unfold JsNumber.exceeds <;> infer_instance

/-- The real value of a computed number; it is read only where the number is not `NaN`. -/
def JsNumber.value : JsNumber → ℝ
  | .nan => 0
  | .real x => x

/-- A way of computing `calculateDistance(lat1, lng1, lat2, lng2)`. -/
abbrev DistanceFn := ℝ → ℝ → ℝ → ℝ → JsNumber

/-- `calculateDistance` computed without rounding. -/
noncomputable def exactDistance : DistanceFn :=
  fun lat1 lng1 lat2 lng2 => JsNumber.real (calculateDistance lat1 lng1 lat2 lng2)

/-- The body of `locations.forEach(location => ...)` (GroupMap.jsx lines 343-385) with the
computation of `calculateDistance` as the parameter `distanceOf`: `distance > rangeRadius`
is `exceeds`, false when the computed distance is `NaN`. -/
noncomputable def geofenceVisitWith (distanceOf : DistanceFn) (memberId : String)
    (myLocation : SelfPosition) (rangeRadius : ℝ) (alertHistory : AlertHistory)
    (notificationPermission : String) (now : Int) (acc : GeofencePass)
    (location : MemberLocation) : GeofencePass :=
  if location.memberId = memberId ∨ location.sharingEnabled = false then acc
  else
    let distance := distanceOf myLocation.lat myLocation.lng location.lat location.lng
    if distance.exceeds rangeRadius then
      let lastAlertTime := (alertHistory location.memberId).getD 0
      let timeSinceLastAlert := now - lastAlertTime
      if timeSinceLastAlert > 2 * 60 * 1000 then
        { newAlerts := acc.newAlerts ++ [alertRecord now distance.value location]
          alertHistory := Function.update acc.alertHistory location.memberId (some now)
          notifications :=
            if notificationPermission = "granted" then
              acc.notifications ++ [alertNotification distance.value location]
            else acc.notifications }
      else acc
    else acc

/-- The geofencing effect up to the queue update (GroupMap.jsx lines 338-385) with the
computation of `calculateDistance` as a parameter. -/
noncomputable def geofencePassWith (distanceOf : DistanceFn) (memberId : String)
    (myLocation : Option SelfPosition) (locations : List MemberLocation) (rangeRadius : ℝ)
    (alertHistory : AlertHistory) (notificationPermission : String) (now : Int) :
    GeofencePass :=
  match myLocation with
  | none => { newAlerts := [], alertHistory := alertHistory, notifications := [] }
  | some pos =>
    if locations.length = 0 then
      { newAlerts := [], alertHistory := alertHistory, notifications := [] }
    else
      locations.foldl
        (geofenceVisitWith distanceOf memberId pos rangeRadius alertHistory
          notificationPermission now)
        { newAlerts := [], alertHistory := alertHistory, notifications := [] }

/-- The test `geofenceVisitWith` applies to one snapshot entry `m`, read off its three nested
conditions, a missing history entry counting as the clock value 0. -/
def alertDueWith (distanceOf : DistanceFn) (memberId : String) (myLocation : SelfPosition)
    (rangeRadius : ℝ) (alertHistory : AlertHistory) (now : Int) (m : MemberLocation) : Prop :=
  m.memberId ≠ memberId ∧ m.sharingEnabled = true ∧
    (distanceOf myLocation.lat myLocation.lng m.lat m.lng).exceeds rangeRadius ∧
    120000 < now - (alertHistory m.memberId).getD 0

noncomputable instance alertDueWithDecidable (distanceOf : DistanceFn) (memberId : String)
    (myLocation : SelfPosition) (rangeRadius : ℝ) (alertHistory : AlertHistory) (now : Int)
    (m : MemberLocation) :
    Decidable (alertDueWith distanceOf memberId myLocation rangeRadius alertHistory now m) := by
  unfold alertDueWith; infer_instance

/-- The condition of the specification for an alert on entry `m`: not the local member,
sharing, computed distance strictly greater than `rangeRadius`, and no history entry or one
more than 120000 ms before `now`. -/
def SpecAlertCondition (distanceOf : DistanceFn) (memberId : String)
    (myLocation : SelfPosition) (rangeRadius : ℝ) (alertHistory : AlertHistory) (now : Int)
    (m : MemberLocation) : Prop :=
  m.memberId ≠ memberId ∧ m.sharingEnabled = true ∧
    (distanceOf myLocation.lat myLocation.lng m.lat m.lng).exceeds rangeRadius ∧
    (alertHistory m.memberId = none ∨
      ∃ t : Int, alertHistory m.memberId = some t ∧ 120000 < now - t)

/-- A snapshot of three sharing members 150 m, 200 m and 250 m north of `origin`. -/
noncomputable def threeMembers : List MemberLocation :=
  [memberNorth "m1" "Ann" 150 true, memberNorth "m2" "Bob" 200 true,
   memberNorth "m3" "Cy" 250 true]

/-- A session of two evaluations of `threeMembers` with `rangeRadius = 100`, at the clock
values 1700000000000 and 1700000200000. -/
noncomputable def busyRun : List AlertEvent :=
  [ .evaluate (some origin) threeMembers 100 "granted" 1700000000000,
    .evaluate (some origin) threeMembers 100 "granted" 1700000200000 ]

noncomputable instance specAlertConditionDecidable (distanceOf : DistanceFn)
    (memberId : String) (myLocation : SelfPosition) (rangeRadius : ℝ)
    (alertHistory : AlertHistory) (now : Int) (m : MemberLocation) :
    Decidable
      (SpecAlertCondition distanceOf memberId myLocation rangeRadius alertHistory now m) :=
  Classical.propDecidable _

/-! ## Lemmas on the haversine distance -/

theorem atan2_sqrt (a : ℝ) (h0 : 0 ≤ a) (h1 : a ≤ 1) :
    atan2 (Real.sqrt a) (Real.sqrt (1 - a)) = Real.arcsin (Real.sqrt a) := by
  unfold atan2
  rw [Complex.arg_of_re_nonneg (by simp [Real.sqrt_nonneg])]
  have habs : Complex.abs ⟨Real.sqrt (1 - a), Real.sqrt a⟩ = 1 := by
    rw [Complex.abs_apply, Complex.normSq_mk, ← sq, ← sq, Real.sq_sqrt h0,
      Real.sq_sqrt (by linarith)]
    simp
  simp [habs]

theorem calculateDistance_metresNorth (d : ℝ) (h0 : 0 ≤ d) (h1 : d ≤ 6371000 * Real.pi) :
    calculateDistance 0 0 (metresNorth d) 0 = d := by
  have hpi := Real.pi_pos
  have hθ : (metresNorth d - 0) * Real.pi / 180 / 2 = d / 12742000 := by
    unfold metresNorth; field_simp; ring
  have hθ0 : 0 ≤ d / 12742000 := by positivity
  have hθ1 : d / 12742000 ≤ Real.pi / 2 := by
    rw [div_le_div_iff₀ (by norm_num) (by norm_num)]; linarith
  unfold calculateDistance
  simp only [hθ, sub_self, zero_mul, zero_div, Real.sin_zero, Real.cos_zero, mul_zero, add_zero]
  have hs : 0 ≤ Real.sin (d / 12742000) :=
    Real.sin_nonneg_of_nonneg_of_le_pi hθ0 (by linarith)
  rw [atan2_sqrt _ (mul_self_nonneg _) (by nlinarith [Real.sin_sq_le_one (d / 12742000)]),
    Real.sqrt_mul_self hs, Real.arcsin_sin (by linarith) hθ1]
  ring

theorem distance_origin_memberNorth (i n : String) (d : ℝ) (b : Bool)
    (h0 : 0 ≤ d) (h1 : d ≤ 18000000) :
    calculateDistance origin.lat origin.lng (memberNorth i n d b).lat (memberNorth i n d b).lng
      = d := by
  have := Real.pi_gt_three
  exact calculateDistance_metresNorth d h0 (by linarith)

theorem mathRound_intCast (n : Int) : mathRound (n : ℝ) = n := by
  unfold mathRound
  rw [Int.floor_eq_iff]
  constructor <;> norm_num



/-! ## Lemmas on one evaluation -/

section
variable (memberId : String) (pos : SelfPosition) (rangeRadius : ℝ)
  (alertHistory : AlertHistory) (perm : String) (now : Int)

theorem geofenceVisit_due (acc : GeofencePass) (m : MemberLocation)
    (h : alertDue memberId pos rangeRadius alertHistory now m) :
    geofenceVisit memberId pos rangeRadius alertHistory perm now acc m =
      { newAlerts := acc.newAlerts ++
          [alertRecord now (calculateDistance pos.lat pos.lng m.lat m.lng) m]
        alertHistory := Function.update acc.alertHistory m.memberId (some now)
        notifications :=
          if perm = "granted" then
            acc.notifications ++
              [alertNotification (calculateDistance pos.lat pos.lng m.lat m.lng) m]
          else acc.notifications } := by
  obtain ⟨h1, h2, h3, h4⟩ := h
  have h4' : now - (alertHistory m.memberId).getD 0 > 2 * 60 * 1000 := by
    norm_num; exact h4
  unfold geofenceVisit
  rw [if_neg (by simp [h1, h2])]
  simp only [gt_iff_lt] at h4' ⊢
  rw [if_pos h3, if_pos h4']

theorem geofenceVisit_not_due (acc : GeofencePass) (m : MemberLocation)
    (h : ¬ alertDue memberId pos rangeRadius alertHistory now m) :
    geofenceVisit memberId pos rangeRadius alertHistory perm now acc m = acc := by
  unfold geofenceVisit
  by_cases h1 : m.memberId = memberId ∨ m.sharingEnabled = false
  · rw [if_pos h1]
  · rw [if_neg h1]
    push_neg at h1
    by_cases h3 : rangeRadius < calculateDistance pos.lat pos.lng m.lat m.lng
    · simp only [gt_iff_lt, if_pos h3]
      by_cases h4 : 2 * 60 * 1000 < now - (alertHistory m.memberId).getD 0
      · exfalso
        apply h
        refine ⟨h1.1, by simpa using h1.2, h3, ?_⟩
        norm_num at h4; exact h4
      · rw [if_neg h4]
    · simp only [gt_iff_lt, if_neg h3]

end

section
variable (memberId : String) (pos : SelfPosition) (rangeRadius : ℝ)
  (alertHistory : AlertHistory) (perm : String) (now : Int)

theorem foldl_geofenceVisit_newAlerts (locs : List MemberLocation) (acc : GeofencePass) :
    (locs.foldl (geofenceVisit memberId pos rangeRadius alertHistory perm now) acc).newAlerts =
      acc.newAlerts ++
        (locs.filter (fun m => decide (alertDue memberId pos rangeRadius alertHistory now m))).map
          (fun m => alertRecord now (calculateDistance pos.lat pos.lng m.lat m.lng) m) := by
  induction locs generalizing acc with
  | nil => simp
  | cons m ms ih =>
    rw [List.foldl_cons, ih]
    by_cases h : alertDue memberId pos rangeRadius alertHistory now m
    · rw [geofenceVisit_due memberId pos rangeRadius alertHistory perm now acc m h]
      simp [List.filter_cons, h]
    · rw [geofenceVisit_not_due memberId pos rangeRadius alertHistory perm now acc m h]
      simp [List.filter_cons, h]

theorem foldl_geofenceVisit_alertHistory (locs : List MemberLocation) (acc : GeofencePass)
    (x : String) :
    (locs.foldl (geofenceVisit memberId pos rangeRadius alertHistory perm now) acc).alertHistory x =
      if ∃ m ∈ locs, alertDue memberId pos rangeRadius alertHistory now m ∧ m.memberId = x
      then some now else acc.alertHistory x := by
  induction locs generalizing acc with
  | nil => simp
  | cons m ms ih =>
    rw [List.foldl_cons, ih]
    by_cases h : alertDue memberId pos rangeRadius alertHistory now m
    · rw [geofenceVisit_due memberId pos rangeRadius alertHistory perm now acc m h]
      by_cases hx : m.memberId = x
      · have e1 : ∃ m' ∈ m :: ms,
            alertDue memberId pos rangeRadius alertHistory now m' ∧ m'.memberId = x :=
          ⟨m, List.mem_cons_self _ _, h, hx⟩
        rw [if_pos e1]
        subst hx
        simp
      · by_cases hex : ∃ m' ∈ ms,
            alertDue memberId pos rangeRadius alertHistory now m' ∧ m'.memberId = x
        · have e1 : ∃ m' ∈ m :: ms,
              alertDue memberId pos rangeRadius alertHistory now m' ∧ m'.memberId = x := by
            obtain ⟨m', hm', hd⟩ := hex
            exact ⟨m', List.mem_cons_of_mem _ hm', hd⟩
          rw [if_pos hex, if_pos e1]
        · have e1 : ¬ ∃ m' ∈ m :: ms,
              alertDue memberId pos rangeRadius alertHistory now m' ∧ m'.memberId = x := by
            rintro ⟨m', hm', hd⟩
            rcases List.mem_cons.mp hm' with rfl | hm'
            · exact hx hd.2
            · exact hex ⟨m', hm', hd⟩
          rw [if_neg hex, if_neg e1]
          simp [Function.update, Ne.symm hx]
    · rw [geofenceVisit_not_due memberId pos rangeRadius alertHistory perm now acc m h]
      have e : (∃ m' ∈ m :: ms,
            alertDue memberId pos rangeRadius alertHistory now m' ∧ m'.memberId = x) ↔
          ∃ m' ∈ ms, alertDue memberId pos rangeRadius alertHistory now m' ∧ m'.memberId = x := by
        constructor
        · rintro ⟨m', hm', hd⟩
          rcases List.mem_cons.mp hm' with rfl | hm'
          · exact absurd hd.1 h
          · exact ⟨m', hm', hd⟩
        · rintro ⟨m', hm', hd⟩
          exact ⟨m', List.mem_cons_of_mem _ hm', hd⟩
      simp only [e]

theorem geofencePass_newAlerts (locs : List MemberLocation) :
    (geofencePass memberId (some pos) locs rangeRadius alertHistory perm now).newAlerts =
      (locs.filter (fun m => decide (alertDue memberId pos rangeRadius alertHistory now m))).map
        (fun m => alertRecord now (calculateDistance pos.lat pos.lng m.lat m.lng) m) := by
  unfold geofencePass
  by_cases h : locs.length = 0
  · have : locs = [] := List.length_eq_zero.mp h
    subst this
    simp
  · simp only [h, if_false]
    rw [foldl_geofenceVisit_newAlerts]
    simp

theorem geofencePass_alertHistory (locs : List MemberLocation) (x : String) :
    (geofencePass memberId (some pos) locs rangeRadius alertHistory perm now).alertHistory x =
      if ∃ m ∈ locs, alertDue memberId pos rangeRadius alertHistory now m ∧ m.memberId = x
      then some now else alertHistory x := by
  unfold geofencePass
  by_cases h : locs.length = 0
  · have : locs = [] := List.length_eq_zero.mp h
    subst this
    simp
  · simp only [h, if_false]
    rw [foldl_geofenceVisit_alertHistory]

theorem geofencePass_none (locs : List MemberLocation) :
    geofencePass memberId none locs rangeRadius alertHistory perm now =
      { newAlerts := [], alertHistory := alertHistory, notifications := [] } := rfl

end

/-! ## Lemmas on sequences of events -/

theorem mem_emittedBy (memberId : String) (s : AlertState) (e : AlertEvent) (b : AlertRecord)
    (hb : b ∈ emittedBy memberId s e) :
    ∃ now, e.clock = some now ∧ b.timestamp = now ∧
      120000 < now - (s.alertHistory b.memberId).getD 0 ∧
      (stepAlert memberId s e).alertHistory b.memberId = some now := by
  cases e with
  | dismiss i => simp [emittedBy] at hb
  | evaluate my locs r p now =>
    cases my with
    | none => simp [emittedBy, geofencePass_none] at hb
    | some pos =>
      simp only [emittedBy, geofencePass_newAlerts, List.mem_map, List.mem_filter,
        decide_eq_true_eq] at hb
      obtain ⟨m, ⟨hm, hdue⟩, rfl⟩ := hb
      refine ⟨now, rfl, rfl, hdue.2.2.2, ?_⟩
      simp only [stepAlert, geofencePass_alertHistory]
      rw [if_pos ⟨m, hm, hdue, rfl⟩]

theorem stepAlert_alertHistory (memberId : String) (s : AlertState) (e : AlertEvent)
    (x : String) :
    (stepAlert memberId s e).alertHistory x = s.alertHistory x ∨
      ∃ now, e.clock = some now ∧ (stepAlert memberId s e).alertHistory x = some now := by
  cases e with
  | dismiss i => exact Or.inl rfl
  | evaluate my locs r p now =>
    cases my with
    | none => exact Or.inl rfl
    | some pos =>
      simp only [stepAlert, geofencePass_alertHistory]
      split
      · exact Or.inr ⟨now, rfl, rfl⟩
      · exact Or.inl rfl

theorem emittedAlong_after_entry (memberId : String) (x : String) (t : Int) :
    ∀ (es : List AlertEvent) (s : AlertState) (t' : Int),
      s.alertHistory x = some t' → t ≤ t' →
      (∀ c ∈ es.filterMap AlertEvent.clock, t ≤ c) →
      ∀ b ∈ emittedAlong memberId s es, b.memberId = x → 120000 < b.timestamp - t := by
  intro es
  induction es with
  | nil => intro s t' _ _ _ b hb; simp [emittedAlong] at hb
  | cons e es ih =>
    intro s t' hs ht hc b hb hx
    simp only [emittedAlong, List.mem_append] at hb
    rcases hb with hb | hb
    · obtain ⟨now, _, hts, hgap, _⟩ := mem_emittedBy memberId s e b hb
      rw [hx, hs] at hgap
      simp only [Option.getD_some] at hgap
      rw [hts]; linarith
    · have hc' : ∀ c ∈ es.filterMap AlertEvent.clock, t ≤ c := by
        intro c hcm
        apply hc
        cases hk : e.clock <;> simp [List.filterMap_cons, hk, hcm]
      rcases stepAlert_alertHistory memberId s e x with h | ⟨now, hnow, h⟩
      · exact ih _ t' (h.trans hs) ht hc' b hb hx
      · have : t ≤ now := hc now (by simp [List.filterMap_cons, hnow])
        exact ih _ now h this hc' b hb hx

theorem emittedBy_distinct_ids (memberId : String) (s : AlertState) (e : AlertEvent)
    (hu : e.UniqueIds) :
    (emittedBy memberId s e).Pairwise (fun a b => a.memberId ≠ b.memberId) := by
  cases e with
  | dismiss i => simp [emittedBy]
  | evaluate my locs r p now =>
    cases my with
    | none => simp [emittedBy, geofencePass_none]
    | some pos =>
      simp only [emittedBy, geofencePass_newAlerts]
      rw [List.pairwise_map]
      apply List.Pairwise.filter
      have hu' : (locs.map MemberLocation.memberId).Nodup := hu
      rw [List.Nodup, List.pairwise_map] at hu'
      exact hu'.imp (fun h => by simpa [alertRecord] using h)

theorem emittedAlong_cooldown (memberId : String) :
    ∀ (es : List AlertEvent) (s : AlertState),
      (es.filterMap AlertEvent.clock).Pairwise (· ≤ ·) →
      (∀ e ∈ es, e.UniqueIds) →
      (emittedAlong memberId s es).Pairwise
        (fun a b => a.memberId = b.memberId → 120000 < b.timestamp - a.timestamp) := by
  intro es
  induction es with
  | nil => intro s _ _; simp [emittedAlong]
  | cons e es ih =>
    intro s hc hu
    have hc' : (es.filterMap AlertEvent.clock).Pairwise (· ≤ ·) := by
      cases hk : e.clock
      · simpa [List.filterMap_cons, hk] using hc
      · rw [List.filterMap_cons, hk] at hc
        exact (List.pairwise_cons.mp hc).2
    simp only [emittedAlong]
    rw [List.pairwise_append]
    refine ⟨?_, ih _ hc' (fun e' he' => hu e' (List.mem_cons_of_mem _ he')), ?_⟩
    · exact (emittedBy_distinct_ids memberId s e (hu e (List.mem_cons_self _ _))).imp
        (fun hne heq => absurd heq hne)
    · intro a ha b hb hab
      obtain ⟨now, hnow, hts, _, hhist⟩ := mem_emittedBy memberId s e a ha
      rw [hts]
      have hle : ∀ c ∈ es.filterMap AlertEvent.clock, now ≤ c := by
        rw [List.filterMap_cons, hnow] at hc
        exact (List.pairwise_cons.mp hc).1
      exact emittedAlong_after_entry memberId a.memberId now es _ now hhist le_rfl hle b hb
        hab.symm

/-! ## Lemmas on the sample data -/

theorem geofencePass_single_due (memberId : String) (pos : SelfPosition) (rangeRadius : ℝ)
    (alertHistory : AlertHistory) (perm : String) (now : Int) (m : MemberLocation)
    (h : alertDue memberId pos rangeRadius alertHistory now m) :
    geofencePass memberId (some pos) [m] rangeRadius alertHistory perm now =
      { newAlerts := [alertRecord now (calculateDistance pos.lat pos.lng m.lat m.lng) m]
        alertHistory := Function.update alertHistory m.memberId (some now)
        notifications :=
          if perm = "granted" then
            [alertNotification (calculateDistance pos.lat pos.lng m.lat m.lng) m]
          else [] } := by
  simp [geofencePass, geofenceVisit_due memberId pos rangeRadius alertHistory perm now _ m h]

theorem geofencePass_single_not_due (memberId : String) (pos : SelfPosition) (rangeRadius : ℝ)
    (alertHistory : AlertHistory) (perm : String) (now : Int) (m : MemberLocation)
    (h : ¬ alertDue memberId pos rangeRadius alertHistory now m) :
    geofencePass memberId (some pos) [m] rangeRadius alertHistory perm now =
      { newAlerts := [], alertHistory := alertHistory, notifications := [] } := by
  simp [geofencePass, geofenceVisit_not_due memberId pos rangeRadius alertHistory perm now _ m h]

theorem alertDue_memberNorth (memberId i n : String) (d r : ℝ) (h : AlertHistory) (now : Int)
    (h0 : 0 ≤ d) (h1 : d ≤ 18000000) :
    alertDue memberId origin r h now (memberNorth i n d true) ↔
      i ≠ memberId ∧ r < d ∧ 120000 < now - (h i).getD 0 := by
  unfold alertDue
  rw [distance_origin_memberNorth i n d true h0 h1]
  simp [memberNorth]

theorem sampleRun_emitted :
    emittedAlong "me" initialAlertState sampleRun =
      [ { memberId := "m1", displayName := "Ann", distance := 150, timestamp := 200000 },
        { memberId := "m1", displayName := "Ann", distance := 150, timestamp := 320001 } ] := by
  have hd := distance_origin_memberNorth "m1" "Ann" 150 true (by norm_num) (by norm_num)
  have hr : mathRound (150 : ℝ) = 150 := by simpa using mathRound_intCast 150
  have d1 : alertDue "me" origin 100 initialAlertState.alertHistory 200000
      (memberNorth "m1" "Ann" 150 true) := by
    rw [alertDue_memberNorth _ _ _ _ _ _ _ (by norm_num) (by norm_num)]
    refine ⟨by decide, by norm_num, by simp [initialAlertState, emptyHistory]⟩
  have d2 : ¬ alertDue "me" origin 100
      (Function.update initialAlertState.alertHistory "m1" (some 200000)) 320000
      (memberNorth "m1" "Ann" 150 true) := by
    rw [alertDue_memberNorth _ _ _ _ _ _ _ (by norm_num) (by norm_num)]
    simp
  have d3 : alertDue "me" origin 100
      (Function.update initialAlertState.alertHistory "m1" (some 200000)) 320001
      (memberNorth "m1" "Ann" 150 true) := by
    rw [alertDue_memberNorth _ _ _ _ _ _ _ (by norm_num) (by norm_num)]
    refine ⟨by decide, by norm_num, by simp⟩
  have e1 := geofencePass_single_due "me" origin 100 initialAlertState.alertHistory "granted"
    200000 _ d1
  have e2 := geofencePass_single_not_due "me" origin 100 _ "granted" 320000 _ d2
  have e3 := geofencePass_single_due "me" origin 100 _ "granted" 320001 _ d3
  have hid : (memberNorth "m1" "Ann" 150 true).memberId = "m1" := rfl
  rw [hid] at e1 e3
  simp only [sampleRun, emittedAlong, emittedBy, stepAlert, e1, e2, e3, hd, alertRecord, hr]
  simp [memberNorth]

/-! ## Lemmas on the records of one member -/

theorem geofencePass_newAlerts_of_member (memberId : String) (pos : SelfPosition)
    (rangeRadius : ℝ) (alertHistory : AlertHistory) (perm : String) (now : Int)
    (locs : List MemberLocation) (x : String) :
    (geofencePass memberId (some pos) locs rangeRadius alertHistory perm now).newAlerts.filter
        (fun a => a.memberId = x) =
      ((locs.filter (fun l => l.memberId = x)).filter
        (fun l => decide (alertDue memberId pos rangeRadius alertHistory now l))).map
        (fun l => alertRecord now (calculateDistance pos.lat pos.lng l.lat l.lng) l) := by
  rw [geofencePass_newAlerts, List.filter_map, List.filter_filter, List.filter_filter]
  congr 1
  apply List.filter_congr
  intro l _
  simp [alertRecord, Bool.and_comm]

theorem geofencePass_alertHistory_of_emitted (memberId : String) (my : Option SelfPosition)
    (rangeRadius : ℝ) (alertHistory : AlertHistory) (perm : String) (now : Int)
    (locs : List MemberLocation) (a : AlertRecord)
    (ha : a ∈ (geofencePass memberId my locs rangeRadius alertHistory perm now).newAlerts) :
    a.memberId ≠ memberId ∧
    (geofencePass memberId my locs rangeRadius alertHistory perm now).alertHistory a.memberId =
      some now := by
  cases my with
  | none => simp [geofencePass_none] at ha
  | some pos =>
    simp only [geofencePass_newAlerts, List.mem_map, List.mem_filter, decide_eq_true_eq] at ha
    obtain ⟨m, ⟨hm, hdue⟩, rfl⟩ := ha
    refine ⟨hdue.1, ?_⟩
    rw [geofencePass_alertHistory, if_pos ⟨m, hm, hdue, rfl⟩]

theorem filter_memberId_of_nodup (locs : List MemberLocation)
    (hu : (locs.map MemberLocation.memberId).Nodup) (m : MemberLocation) (hm : m ∈ locs) :
    locs.filter (fun l => l.memberId = m.memberId) = [m] := by
  induction locs with
  | nil => simp at hm
  | cons l ls ih =>
    rw [List.map_cons, List.nodup_cons] at hu
    rcases List.mem_cons.mp hm with rfl | hm'
    · have : ls.filter (fun l => l.memberId = m.memberId) = [] := by
        rw [List.filter_eq_nil_iff]
        intro l' hl' hc
        apply hu.1
        rw [List.mem_map]
        exact ⟨l', hl', by simpa using hc⟩
      simp [List.filter_cons, this]
    · have hne : l.memberId ≠ m.memberId := by
        intro hc
        apply hu.1
        rw [List.mem_map]
        exact ⟨m, hm', hc.symm⟩
      simp [List.filter_cons, hne, ih hu.2 hm']

/-! ## Lemmas on the alert queue -/

theorem filter_enumFrom_of_lt (l : List AlertRecord) (n i : Nat) (h : i < n) :
    ((l.enumFrom n).filter (fun p => p.1 ≠ i)).map Prod.snd = l := by
  induction l generalizing n with
  | nil => rfl
  | cons a l ih =>
    have hne : n ≠ i := by omega
    rw [List.enumFrom_cons, List.filter_cons_of_pos (by simpa using hne), List.map_cons,
      ih (n + 1) (by omega)]

theorem filter_enumFrom_eq_eraseIdx (l : List AlertRecord) (n i : Nat) :
    ((l.enumFrom n).filter (fun p => p.1 ≠ i + n)).map Prod.snd = l.eraseIdx i := by
  induction l generalizing n i with
  | nil => rfl
  | cons a l ih =>
    cases i with
    | zero =>
      simp only [List.enumFrom_cons, Nat.zero_add, List.eraseIdx_cons_zero]
      rw [List.filter_cons_of_neg (by simp)]
      exact filter_enumFrom_of_lt l (n + 1) n (by omega)
    | succ k =>
      have hne : n ≠ k + 1 + n := by omega
      have e : k + 1 + n = k + (n + 1) := by omega
      simp only [List.enumFrom_cons, List.eraseIdx_cons_succ]
      rw [List.filter_cons_of_pos (by simp [hne]), List.map_cons, e, ih (n + 1) k]

theorem dismissAlert_eq_eraseIdx (index : Nat) (prev : List AlertRecord) :
    dismissAlert index prev = prev.eraseIdx index := by
  unfold dismissAlert List.enum
  simpa using filter_enumFrom_eq_eraseIdx prev 0 index

theorem pushAlerts_length_le (newAlerts prev : List AlertRecord) (h : prev.length ≤ 5) :
    (pushAlerts newAlerts prev).length ≤ 5 := by
  unfold pushAlerts
  split
  · rw [List.length_take]; exact Nat.min_le_left _ _
  · exact h

theorem dismissAlert_length_le (index : Nat) (prev : List AlertRecord) :
    (dismissAlert index prev).length ≤ prev.length := by
  rw [dismissAlert_eq_eraseIdx]
  exact (List.eraseIdx_sublist prev index).length_le

theorem stepAlert_length_le (memberId : String) (s : AlertState) (e : AlertEvent)
    (h : s.geofenceAlerts.length ≤ 5) : (stepAlert memberId s e).geofenceAlerts.length ≤ 5 := by
  cases e with
  | evaluate my locs r p now => exact pushAlerts_length_le _ _ h
  | dismiss i => exact le_trans (dismissAlert_length_le i _) h

theorem runAlerts_length_le (memberId : String) (events : List AlertEvent) (s : AlertState)
    (h : s.geofenceAlerts.length ≤ 5) :
    (runAlerts memberId s events).geofenceAlerts.length ≤ 5 := by
  induction events generalizing s with
  | nil => exact h
  | cons e es ih => exact ih _ (stepAlert_length_le memberId s e h)

theorem pushAlerts_eq_take (newAlerts prev : List AlertRecord) (h : prev.length ≤ 5) :
    pushAlerts newAlerts prev = (newAlerts ++ prev).take 5 := by
  unfold pushAlerts
  split
  · rfl
  · rename_i hn
    have : newAlerts = [] := List.length_eq_zero.mp (by omega)
    subst this
    rw [List.nil_append, List.take_of_length_le h]

theorem pushAlerts_sublist (newAlerts prev : List AlertRecord) :
    (pushAlerts newAlerts prev).Sublist (newAlerts ++ prev) := by
  unfold pushAlerts
  split
  · exact List.take_sublist _ _
  · exact List.sublist_append_right _ _

theorem runAlerts_newest_first (memberId : String) :
    ∀ (es : List AlertEvent) (s : AlertState) (c : Int),
      s.geofenceAlerts.Pairwise (fun a b => b.timestamp ≤ a.timestamp) →
      (∀ a ∈ s.geofenceAlerts, a.timestamp ≤ c) →
      (∀ k ∈ es.filterMap AlertEvent.clock, c ≤ k) →
      (es.filterMap AlertEvent.clock).Pairwise (· ≤ ·) →
      (runAlerts memberId s es).geofenceAlerts.Pairwise
        (fun a b => b.timestamp ≤ a.timestamp) := by
  intro es
  induction es with
  | nil => intro s c h _ _ _; exact h
  | cons e es ih =>
    intro s c hs hb hc hp
    cases e with
    | dismiss i =>
      have hsub : (dismissAlert i s.geofenceAlerts).Sublist s.geofenceAlerts := by
        rw [dismissAlert_eq_eraseIdx]; exact List.eraseIdx_sublist _ _
      exact ih (stepAlert memberId s (.dismiss i)) c (hs.sublist hsub)
        (fun a ha => hb a (hsub.subset ha))
        (fun k hk => hc k (by simpa [List.filterMap_cons, AlertEvent.clock] using hk))
        (by simpa [List.filterMap_cons, AlertEvent.clock] using hp)
    | evaluate my locs r p now =>
      have hnow : c ≤ now := hc now (by simp [List.filterMap_cons, AlertEvent.clock])
      rw [List.filterMap_cons] at hp
      simp only [AlertEvent.clock] at hp
      obtain ⟨hle, hp'⟩ := List.pairwise_cons.mp hp
      have hts : ∀ a ∈ (geofencePass memberId my locs r s.alertHistory p now).newAlerts,
          a.timestamp = now := by
        intro a ha
        obtain ⟨k, hk, hka, _⟩ := mem_emittedBy memberId s (.evaluate my locs r p now) a ha
        simp only [AlertEvent.clock, Option.some.injEq] at hk
        rw [hka, hk]
      have hall : ((geofencePass memberId my locs r s.alertHistory p now).newAlerts ++
          s.geofenceAlerts).Pairwise (fun a b => b.timestamp ≤ a.timestamp) := by
        rw [List.pairwise_append]
        refine ⟨?_, hs, ?_⟩
        · rw [List.pairwise_iff_forall_sublist]
          intro a b hab
          have ha := hts a (hab.subset (by simp))
          have hb' := hts b (hab.subset (by simp))
          rw [ha, hb']
        · intro a ha b hb'
          rw [hts a ha]
          exact le_trans (hb b hb') hnow
      have hsub := pushAlerts_sublist
        (geofencePass memberId my locs r s.alertHistory p now).newAlerts s.geofenceAlerts
      refine ih (stepAlert memberId s (.evaluate my locs r p now)) now (hall.sublist hsub)
        ?_ hle hp'
      intro a ha
      rcases List.mem_append.mp (hsub.subset ha) with h | h
      · exact le_of_eq (hts a h)
      · exact le_trans (hb a h) hnow

/-! ## Lemmas on formatting and the equator distance -/

theorem calculateDistance_equator (lng d : ℝ) (h0 : 0 ≤ d) (h1 : d ≤ 180) :
    calculateDistance 0 lng 0 (lng + d) = 6371000 * (d * Real.pi / 180) := by
  have hpi := Real.pi_pos
  have hθ : (lng + d - lng) * Real.pi / 180 / 2 = d * Real.pi / 360 := by ring
  have hθ0 : 0 ≤ d * Real.pi / 360 := by positivity
  have hθ1 : d * Real.pi / 360 ≤ Real.pi / 2 := by nlinarith
  unfold calculateDistance
  simp only [hθ, sub_self, zero_mul, zero_div, Real.sin_zero, Real.cos_zero, mul_zero,
    zero_add, one_mul, mul_one]
  have hs : 0 ≤ Real.sin (d * Real.pi / 360) :=
    Real.sin_nonneg_of_nonneg_of_le_pi hθ0 (by linarith)
  rw [atan2_sqrt _ (mul_self_nonneg _) (by nlinarith [Real.sin_sq_le_one (d * Real.pi / 360)]),
    Real.sqrt_mul_self hs, Real.arcsin_sin (by linarith) hθ1]
  ring

theorem formatCountdown_of_pos (currentTime expiry : Int) (h : 0 < expiry - currentTime) :
    formatCountdown currentTime (some expiry) =
      if 3600000 ≤ expiry - currentTime then
        some (toString ((expiry - currentTime) / 3600000) ++ "h " ++
          toString ((expiry - currentTime) % 3600000 / 60000) ++ "m")
      else if 60000 ≤ expiry - currentTime then
        some (toString ((expiry - currentTime) / 60000) ++ "m " ++
          toString ((expiry - currentTime) % 60000 / 1000) ++ "s")
      else some (toString ((expiry - currentTime) / 1000) ++ "s") := by
  have e1 : (1000 * 60 * 60 : Int) = 3600000 := by norm_num
  have e2 : (1000 * 60 : Int) = 60000 := by norm_num
  have e5 : (60000 * 60 : Int) = 3600000 := by norm_num
  simp only [formatCountdown, e1, e2, e5, gt_iff_lt]
  rw [if_neg (by omega)]
  by_cases h1 : 3600000 ≤ expiry - currentTime
  · rw [if_pos h1, if_pos (by omega)]
  · rw [if_neg h1, if_neg (by omega)]
    by_cases h2 : 60000 ≤ expiry - currentTime
    · have e3 : (expiry - currentTime) % 3600000 / 60000 = (expiry - currentTime) / 60000 := by
        omega
      rw [if_pos h2, if_pos (by omega), e3]
    · have e4 : (expiry - currentTime) % 60000 / 1000 = (expiry - currentTime) / 1000 := by
        omega
      rw [if_neg h2, if_neg (by omega), e4]

theorem append_m_ne_expired (x : String) : x ++ "m" ≠ "Expired" := by
  intro h
  have h2 := congrArg (fun s => s.data.getLast?) h
  simp only [String.data_append] at h2
  rw [List.getLast?_append] at h2
  simp at h2

theorem append_s_ne_expired (x : String) : x ++ "s" ≠ "Expired" := by
  intro h
  have h2 := congrArg (fun s => s.data.getLast?) h
  simp only [String.data_append] at h2
  rw [List.getLast?_append] at h2
  simp at h2

theorem formatCountdown_ne_expired (currentTime expiry : Int) (h : 0 < expiry - currentTime) :
    formatCountdown currentTime (some expiry) ≠ some "Expired" := by
  rw [formatCountdown_of_pos currentTime expiry h]
  split
  · intro hc; exact append_m_ne_expired _ (Option.some.inj hc)
  · split
    · intro hc; exact append_s_ne_expired _ (Option.some.inj hc)
    · intro hc; exact append_s_ne_expired _ (Option.some.inj hc)

theorem fdiv_pos_eq (a : Int) (k : Int) (hk : 0 ≤ k) : Int.fdiv a k = a / k :=
  Int.fdiv_eq_ediv a hk

/-! ## Lemmas on the expiry check, the poll and the position watch -/

theorem expiryCheck_of_ge (expiry t : Int) (v : MapView) (h : t ≥ expiry) :
    expiryCheck (some expiry) t v =
      { v with
        error := "This group has expired."
        navigations := v.navigations ++ [{ delay := 2000, path := "/" }] } := by
  simp only [expiryCheck]
  rw [if_pos h]

theorem expiryCheck_of_lt (expiry t : Int) (v : MapView) (h : t < expiry) :
    expiryCheck (some expiry) t v = v := by
  simp only [expiryCheck]
  rw [if_neg (by omega)]

theorem expiryTicks_navigations (expiry : Int) (ticks : List Int) (v : MapView) :
    (expiryTicks (some expiry) ticks v).navigations =
      v.navigations ++
        List.replicate (ticks.filter (fun t => t ≥ expiry)).length { delay := 2000, path := "/" } := by
  unfold expiryTicks
  induction ticks generalizing v with
  | nil => simp
  | cons t ts ih =>
    rw [List.foldl_cons, ih]
    by_cases h : t ≥ expiry
    · rw [expiryCheck_of_ge expiry t v h]
      simp [List.filter_cons, h, List.replicate_succ]
    · rw [expiryCheck_of_lt expiry t v (by omega)]
      simp [List.filter_cons, h]

theorem expiryTicks_of_lt (expiry : Int) (ticks : List Int) (v : MapView)
    (h : ∀ t ∈ ticks, t < expiry) : expiryTicks (some expiry) ticks v = v := by
  unfold expiryTicks
  induction ticks generalizing v with
  | nil => rfl
  | cons t ts ih =>
    rw [List.foldl_cons, expiryCheck_of_lt expiry t v (h t (List.mem_cons_self _ _))]
    exact ih v (fun t' ht' => h t' (List.mem_cons_of_mem _ ht'))

theorem expiryTicks_append (expiresAt : Option Int) (xs ys : List Int) (v : MapView) :
    expiryTicks expiresAt (xs ++ ys) v = expiryTicks expiresAt ys (expiryTicks expiresAt xs v) := by
  unfold expiryTicks
  rw [List.foldl_append]

theorem fetchLocations_navigations (r : PollResult) (v : MapView) :
    (fetchLocations r v).navigations =
      v.navigations ++ (if r.isNotFound then [{ delay := 2000, path := "/" }] else []) := by
  cases r with
  | success l => simp [fetchLocations, PollResult.isNotFound]
  | failure m =>
    simp only [fetchLocations, PollResult.isNotFound]
    split <;> simp

theorem fetchAll_navigations (results : List PollResult) (v : MapView) :
    (fetchAll results v).navigations =
      v.navigations ++ List.replicate (results.filter PollResult.isNotFound).length
        { delay := 2000, path := "/" } := by
  unfold fetchAll
  induction results generalizing v with
  | nil => simp
  | cons r rs ih =>
    rw [List.foldl_cons, ih, fetchLocations_navigations]
    by_cases h : r.isNotFound = true
    · simp [List.filter_cons, h, List.replicate_succ]
    · simp [List.filter_cons, h]

theorem stepPosition_not_pending (supported : Bool) (groupId memberId : String) (v : MapView)
    (e : PositionEvent) (h : v.permissionState ≠ PermissionState.pending) :
    (stepPosition supported groupId memberId v e).permissionState ≠
      PermissionState.pending := by
  cases e with
  | mount =>
    simp only [stepPosition, geolocationEffect]
    split
    · simp
    · exact h
  | fix la lo =>
    simp only [stepPosition, onPositionFix]
    split <;> simp
  | error code =>
    simp only [stepPosition, onPositionError]
    split
    · simp
    · split
      · simp
      · split <;> simp
  | toggleSharing =>
    simp only [stepPosition, geolocationEffect]
    split
    · simp
    · exact h
  | reportFailed m => exact h

/-! ## Lemmas on the teardown -/

theorem teardown_mounted (watchId pollId clockId : Nat) (hpoll : pollId ≠ 0) :
    teardown (mounted watchId pollId clockId) =
      { watchIdRef := none, intervalRef := none, timer := clockId,
        calls := [CancelCall.clearWatch watchId, CancelCall.clearInterval clockId,
          CancelCall.clearWatch watchId, CancelCall.clearInterval pollId] } := by
  simp [teardown, mounted, geolocationCleanup, clockCleanup, unmountCleanup, fetchCleanup, hpoll]

/-! ## Lemmas on notifications -/

theorem foldl_geofenceVisit_notifications (memberId : String) (pos : SelfPosition)
    (rangeRadius : ℝ) (alertHistory : AlertHistory) (perm : String) (now : Int)
    (locs : List MemberLocation) (acc : GeofencePass) :
    (locs.foldl (geofenceVisit memberId pos rangeRadius alertHistory perm now) acc).notifications =
      acc.notifications ++
        (if perm = "granted" then
          (locs.filter
            (fun m => decide (alertDue memberId pos rangeRadius alertHistory now m))).map
            (fun m => alertNotification (calculateDistance pos.lat pos.lng m.lat m.lng) m)
        else []) := by
  induction locs generalizing acc with
  | nil => simp
  | cons m ms ih =>
    rw [List.foldl_cons, ih]
    by_cases h : alertDue memberId pos rangeRadius alertHistory now m
    · rw [geofenceVisit_due memberId pos rangeRadius alertHistory perm now acc m h]
      by_cases hp : perm = "granted"
      · simp [List.filter_cons, h, hp]
      · simp [List.filter_cons, h, hp]
    · rw [geofenceVisit_not_due memberId pos rangeRadius alertHistory perm now acc m h]
      simp [List.filter_cons, h]

theorem geofencePass_notifications (memberId : String) (pos : SelfPosition)
    (rangeRadius : ℝ) (alertHistory : AlertHistory) (perm : String) (now : Int)
    (locs : List MemberLocation) :
    (geofencePass memberId (some pos) locs rangeRadius alertHistory perm now).notifications =
      if perm = "granted" then
        (locs.filter
          (fun m => decide (alertDue memberId pos rangeRadius alertHistory now m))).map
          (fun m => alertNotification (calculateDistance pos.lat pos.lng m.lat m.lng) m)
      else [] := by
  unfold geofencePass
  by_cases h : locs.length = 0
  · have : locs = [] := List.length_eq_zero.mp h
    subst this
    simp
  · simp only [h, if_false]
    rw [foldl_geofenceVisit_notifications]
    simp

theorem mathRound_nearest (x : ℝ) : -(1 / 2) < (mathRound x : ℝ) - x ∧ (mathRound x : ℝ) - x ≤ 1 / 2 := by
  unfold mathRound
  have h1 := Int.floor_le (x + 1 / 2)
  have h2 := Int.lt_floor_add_one (x + 1 / 2)
  constructor <;> linarith

/-! ## Lemmas on pausing and on updatedAt -/

theorem geofencePass_alertHistory_of_paused (memberId : String) (my : Option SelfPosition)
    (locs : List MemberLocation) (r : ℝ) (h : AlertHistory) (p : String) (now : Int)
    (x : String) (hp : ∀ l ∈ locs, l.memberId = x → l.sharingEnabled = false) :
    (geofencePass memberId my locs r h p now).alertHistory x = h x := by
  cases my with
  | none => rfl
  | some pos =>
    rw [geofencePass_alertHistory, if_neg]
    rintro ⟨m, hm, hdue, hmx⟩
    have := hp m hm hmx
    rw [hdue.2.1] at this
    exact absurd this (by decide)

theorem runAlerts_alertHistory_of_paused (memberId : String) (x : String)
    (events : List AlertEvent) (s : AlertState) (hp : ∀ e ∈ events, e.PausedFor x) :
    (runAlerts memberId s events).alertHistory x = s.alertHistory x := by
  induction events generalizing s with
  | nil => rfl
  | cons e es ih =>
    simp only [runAlerts]
    rw [ih _ (fun e' he' => hp e' (List.mem_cons_of_mem _ he'))]
    have he := hp e (List.mem_cons_self _ _)
    cases e with
    | dismiss i => rfl
    | evaluate my locs r p now =>
      exact geofencePass_alertHistory_of_paused memberId my locs r s.alertHistory p now x he

theorem geofenceVisit_withUpdatedAt (memberId : String) (pos : SelfPosition) (r : ℝ)
    (h : AlertHistory) (p : String) (now : Int) (acc : GeofencePass) (l : MemberLocation)
    (t : Int) :
    geofenceVisit memberId pos r h p now acc (l.withUpdatedAt t) =
      geofenceVisit memberId pos r h p now acc l := rfl

theorem geofencePass_map_withUpdatedAt (memberId : String) (my : Option SelfPosition)
    (locs : List MemberLocation) (r : ℝ) (h : AlertHistory) (p : String) (now : Int) :
    geofencePass memberId my (locs.map (fun l => l.withUpdatedAt 0)) r h p now =
      geofencePass memberId my locs r h p now := by
  cases my with
  | none => rfl
  | some pos =>
    simp only [geofencePass, List.length_map, List.foldl_map, geofenceVisit_withUpdatedAt]

/-! ## Lemmas on the map display and on completions -/

theorem filterMap_renderMarker_enumFrom (memberId : String) (locs : List MemberLocation)
    (n : Nat) :
    ((locs.enumFrom n).filterMap (fun p => renderMarker memberId p.1 p.2)).map
        (fun m => (m.key, m.position)) =
      (locs.filter (fun l => l.sharingEnabled)).map (fun l => (l.memberId, (l.lat, l.lng))) := by
  induction locs generalizing n with
  | nil => rfl
  | cons l ls ih =>
    rw [List.enumFrom_cons]
    cases hs : l.sharingEnabled
    · have e : renderMarker memberId n l = none := by simp [renderMarker, hs]
      rw [List.filterMap_cons_none (f := fun (p : Nat × MemberLocation) => renderMarker memberId p.1 p.2)
        (a := (n, l)) e,
        List.filter_cons_of_neg (by simp [hs])]
      exact ih (n + 1)
    · have e : renderMarker memberId n l = some
          { key := l.memberId
            position := (l.lat, l.lng)
            displayName := l.displayName
            color := MEMBER_COLORS.getD (n % MEMBER_COLORS.length) ""
            isCurrentUser := decide (l.memberId = memberId) } := by
        simp [renderMarker, hs]
      rw [List.filterMap_cons_some (f := fun (p : Nat × MemberLocation) => renderMarker memberId p.1 p.2)
        (a := (n, l)) e,
        List.filter_cons_of_pos (by simp [hs]), List.map_cons,
        List.map_cons, ih (n + 1)]

theorem renderMarkers_sharing_only (memberId : String) (locs : List MemberLocation) :
    (renderMarkers memberId locs).map (fun m => (m.key, m.position)) =
      (locs.filter (fun l => l.sharingEnabled)).map (fun l => (l.memberId, (l.lat, l.lng))) :=
  filterMap_renderMarker_enumFrom memberId locs 0

theorem fitBoundsPositions_all (locs : List MemberLocation) (h : locs ≠ []) :
    fitBoundsPositions locs = some (locs.map (fun l => (l.lat, l.lng))) := by
  unfold fitBoundsPositions AutoFitBounds
  rw [if_pos (List.length_pos.mpr h)]

theorem fetchLocations_success_locations (l : List MemberLocation) (v : MapView) :
    (fetchLocations (.success l) v).locations = l := rfl

/-! ## Lemmas on the identity store and position reports -/

theorem generateMemberId_ne_empty (now : Int) (random : String) :
    generateMemberId now random ≠ "" := by
  intro h
  have hl := congrArg String.length h
  simp only [generateMemberId, String.length_append] at hl
  have h7 : ("member_" : String).length = 7 := by decide
  have h0 : ("" : String).length = 0 := rfl
  rw [h7, h0] at hl
  omega

theorem getMemberId_of_stored (now : Int) (random : String) (store : LocalStorage)
    (id : String) (hs : store MEMBER_ID_KEY = some id) (hne : id ≠ "") :
    getMemberId now random store = (id, store) := by
  simp [getMemberId, hs, itemFalsy, hne]

theorem getMemberId_of_absent (now : Int) (random : String) (store : LocalStorage)
    (hs : itemFalsy (store MEMBER_ID_KEY) = true) :
    getMemberId now random store =
      (generateMemberId now random,
        setItem store MEMBER_ID_KEY (generateMemberId now random)) := by
  simp [getMemberId, hs]

theorem getMemberId_stored_after (now : Int) (random : String) (store : LocalStorage) :
    (getMemberId now random store).2 MEMBER_ID_KEY = some (getMemberId now random store).1 ∧
    (getMemberId now random store).1 ≠ "" := by
  cases hf : itemFalsy (store MEMBER_ID_KEY)
  · cases hs : store MEMBER_ID_KEY with
    | none => simp [hs, itemFalsy] at hf
    | some id =>
      have hne : id ≠ "" := by simpa [hs, itemFalsy] using hf
      rw [getMemberId_of_stored now random store id hs hne]
      exact ⟨hs, hne⟩
  · rw [getMemberId_of_absent now random store hf]
    exact ⟨by simp [setItem], generateMemberId_ne_empty now random⟩

theorem stepPosition_requests_sharing (supported : Bool) (groupId memberId : String)
    (v : MapView) (e : PositionEvent) (h : ∀ q ∈ v.requests, q.sharingEnabled = true) :
    ∀ q ∈ (stepPosition supported groupId memberId v e).requests, q.sharingEnabled = true := by
  cases e with
  | mount =>
    simp only [stepPosition, geolocationEffect]
    split <;> exact h
  | fix la lo =>
    simp only [stepPosition, onPositionFix]
    split
    · intro q hq
      rcases List.mem_append.mp hq with hq | hq
      · exact h q hq
      · rw [List.mem_singleton.mp hq]; rfl
    · exact h
  | error code =>
    simp only [stepPosition, onPositionError]
    split
    · exact h
    · split
      · exact h
      · split <;> exact h
  | toggleSharing =>
    simp only [stepPosition, geolocationEffect]
    split <;> exact h
  | reportFailed m => exact h

theorem runPosition_requests_sharing (supported : Bool) (groupId memberId : String)
    (events : List PositionEvent) (v : MapView)
    (h : ∀ q ∈ v.requests, q.sharingEnabled = true) :
    ∀ q ∈ (runPosition supported groupId memberId v events).requests,
      q.sharingEnabled = true := by
  induction events generalizing v with
  | nil => exact h
  | cons e es ih =>
    exact ih _ (stepPosition_requests_sharing supported groupId memberId v e h)

/-! ## Lemmas on the evaluation with the computed distance -/

section
variable (distanceOf : DistanceFn) (memberId : String) (pos : SelfPosition) (rangeRadius : ℝ)
  (alertHistory : AlertHistory) (perm : String) (now : Int)

theorem geofenceVisitWith_due (acc : GeofencePass) (m : MemberLocation)
    (h : alertDueWith distanceOf memberId pos rangeRadius alertHistory now m) :
    geofenceVisitWith distanceOf memberId pos rangeRadius alertHistory perm now acc m =
      { newAlerts := acc.newAlerts ++
          [alertRecord now (distanceOf pos.lat pos.lng m.lat m.lng).value m]
        alertHistory := Function.update acc.alertHistory m.memberId (some now)
        notifications :=
          if perm = "granted" then
            acc.notifications ++
              [alertNotification (distanceOf pos.lat pos.lng m.lat m.lng).value m]
          else acc.notifications } := by
  obtain ⟨h1, h2, h3, h4⟩ := h
  have h4' : now - (alertHistory m.memberId).getD 0 > 2 * 60 * 1000 := by
    norm_num; exact h4
  unfold geofenceVisitWith
  rw [if_neg (by simp [h1, h2])]
  simp only [gt_iff_lt] at h4' ⊢
  rw [if_pos h3, if_pos h4']

theorem geofenceVisitWith_not_due (acc : GeofencePass) (m : MemberLocation)
    (h : ¬ alertDueWith distanceOf memberId pos rangeRadius alertHistory now m) :
    geofenceVisitWith distanceOf memberId pos rangeRadius alertHistory perm now acc m = acc := by
  unfold geofenceVisitWith
  by_cases h1 : m.memberId = memberId ∨ m.sharingEnabled = false
  · rw [if_pos h1]
  · rw [if_neg h1]
    push_neg at h1
    by_cases h3 : (distanceOf pos.lat pos.lng m.lat m.lng).exceeds rangeRadius
    · simp only [gt_iff_lt, if_pos h3]
      by_cases h4 : 2 * 60 * 1000 < now - (alertHistory m.memberId).getD 0
      · exfalso
        apply h
        refine ⟨h1.1, by simpa using h1.2, h3, ?_⟩
        norm_num at h4; exact h4
      · rw [if_neg h4]
    · simp only [gt_iff_lt, if_neg h3]

theorem foldl_geofenceVisitWith_newAlerts (locs : List MemberLocation) (acc : GeofencePass) :
    (locs.foldl (geofenceVisitWith distanceOf memberId pos rangeRadius alertHistory perm now)
        acc).newAlerts =
      acc.newAlerts ++
        (locs.filter (fun m =>
          decide (alertDueWith distanceOf memberId pos rangeRadius alertHistory now m))).map
          (fun m => alertRecord now (distanceOf pos.lat pos.lng m.lat m.lng).value m) := by
  induction locs generalizing acc with
  | nil => simp
  | cons m ms ih =>
    rw [List.foldl_cons, ih]
    by_cases h : alertDueWith distanceOf memberId pos rangeRadius alertHistory now m
    · rw [geofenceVisitWith_due distanceOf memberId pos rangeRadius alertHistory perm now acc m h]
      simp [List.filter_cons, h]
    · rw [geofenceVisitWith_not_due distanceOf memberId pos rangeRadius alertHistory perm now
        acc m h]
      simp [List.filter_cons, h]

theorem foldl_geofenceVisitWith_alertHistory (locs : List MemberLocation) (acc : GeofencePass)
    (x : String) :
    (locs.foldl (geofenceVisitWith distanceOf memberId pos rangeRadius alertHistory perm now)
        acc).alertHistory x =
      if ∃ m ∈ locs,
          alertDueWith distanceOf memberId pos rangeRadius alertHistory now m ∧ m.memberId = x
      then some now else acc.alertHistory x := by
  induction locs generalizing acc with
  | nil => simp
  | cons m ms ih =>
    rw [List.foldl_cons, ih]
    by_cases h : alertDueWith distanceOf memberId pos rangeRadius alertHistory now m
    · rw [geofenceVisitWith_due distanceOf memberId pos rangeRadius alertHistory perm now acc m h]
      by_cases hx : m.memberId = x
      · have e1 : ∃ m' ∈ m :: ms,
            alertDueWith distanceOf memberId pos rangeRadius alertHistory now m' ∧
              m'.memberId = x :=
          ⟨m, List.mem_cons_self _ _, h, hx⟩
        rw [if_pos e1]
        subst hx
        simp
      · by_cases hex : ∃ m' ∈ ms,
            alertDueWith distanceOf memberId pos rangeRadius alertHistory now m' ∧
              m'.memberId = x
        · have e1 : ∃ m' ∈ m :: ms,
              alertDueWith distanceOf memberId pos rangeRadius alertHistory now m' ∧
                m'.memberId = x := by
            obtain ⟨m', hm', hd⟩ := hex
            exact ⟨m', List.mem_cons_of_mem _ hm', hd⟩
          rw [if_pos hex, if_pos e1]
        · have e1 : ¬ ∃ m' ∈ m :: ms,
              alertDueWith distanceOf memberId pos rangeRadius alertHistory now m' ∧
                m'.memberId = x := by
            rintro ⟨m', hm', hd⟩
            rcases List.mem_cons.mp hm' with rfl | hm'
            · exact hx hd.2
            · exact hex ⟨m', hm', hd⟩
          rw [if_neg hex, if_neg e1]
          simp [Function.update, Ne.symm hx]
    · rw [geofenceVisitWith_not_due distanceOf memberId pos rangeRadius alertHistory perm now
        acc m h]
      have e : (∃ m' ∈ m :: ms,
            alertDueWith distanceOf memberId pos rangeRadius alertHistory now m' ∧
              m'.memberId = x) ↔
          ∃ m' ∈ ms, alertDueWith distanceOf memberId pos rangeRadius alertHistory now m' ∧
            m'.memberId = x := by
        constructor
        · rintro ⟨m', hm', hd⟩
          rcases List.mem_cons.mp hm' with rfl | hm'
          · exact absurd hd.1 h
          · exact ⟨m', hm', hd⟩
        · rintro ⟨m', hm', hd⟩
          exact ⟨m', List.mem_cons_of_mem _ hm', hd⟩
      simp only [e]

theorem geofencePassWith_newAlerts (locs : List MemberLocation) :
    (geofencePassWith distanceOf memberId (some pos) locs rangeRadius alertHistory perm
        now).newAlerts =
      (locs.filter (fun m =>
        decide (alertDueWith distanceOf memberId pos rangeRadius alertHistory now m))).map
        (fun m => alertRecord now (distanceOf pos.lat pos.lng m.lat m.lng).value m) := by
  unfold geofencePassWith
  by_cases h : locs.length = 0
  · have : locs = [] := List.length_eq_zero.mp h
    subst this
    simp
  · simp only [h, if_false]
    rw [foldl_geofenceVisitWith_newAlerts]
    simp

theorem geofencePassWith_alertHistory (locs : List MemberLocation) (x : String) :
    (geofencePassWith distanceOf memberId (some pos) locs rangeRadius alertHistory perm
        now).alertHistory x =
      if ∃ m ∈ locs,
          alertDueWith distanceOf memberId pos rangeRadius alertHistory now m ∧ m.memberId = x
      then some now else alertHistory x := by
  unfold geofencePassWith
  by_cases h : locs.length = 0
  · have : locs = [] := List.length_eq_zero.mp h
    subst this
    simp
  · simp only [h, if_false]
    rw [foldl_geofenceVisitWith_alertHistory]

theorem geofencePassWith_newAlerts_of_member (locs : List MemberLocation) (x : String) :
    (geofencePassWith distanceOf memberId (some pos) locs rangeRadius alertHistory perm
        now).newAlerts.filter (fun a => a.memberId = x) =
      ((locs.filter (fun l => l.memberId = x)).filter (fun l =>
        decide (alertDueWith distanceOf memberId pos rangeRadius alertHistory now l))).map
        (fun l => alertRecord now (distanceOf pos.lat pos.lng l.lat l.lng).value l) := by
  rw [geofencePassWith_newAlerts, List.filter_map, List.filter_filter, List.filter_filter]
  congr 1
  apply List.filter_congr
  intro l _
  simp [alertRecord, Bool.and_comm]

theorem geofencePassWith_alertHistory_of_emitted (my : Option SelfPosition)
    (locs : List MemberLocation) (a : AlertRecord)
    (ha : a ∈ (geofencePassWith distanceOf memberId my locs rangeRadius alertHistory perm
      now).newAlerts) :
    a.memberId ≠ memberId ∧
    (geofencePassWith distanceOf memberId my locs rangeRadius alertHistory perm
      now).alertHistory a.memberId = some now := by
  cases my with
  | none => simp [geofencePassWith] at ha
  | some pos =>
    simp only [geofencePassWith_newAlerts, List.mem_map, List.mem_filter,
      decide_eq_true_eq] at ha
    obtain ⟨m, ⟨hm, hdue⟩, rfl⟩ := ha
    refine ⟨hdue.1, ?_⟩
    rw [geofencePassWith_alertHistory, if_pos ⟨m, hm, hdue, rfl⟩]

theorem alertDueWith_iff_spec (m : MemberLocation) (hclock : 120000 < now) :
    alertDueWith distanceOf memberId pos rangeRadius alertHistory now m ↔
      SpecAlertCondition distanceOf memberId pos rangeRadius alertHistory now m := by
  unfold alertDueWith SpecAlertCondition
  cases hh : alertHistory m.memberId with
  | none => simp [hclock]
  | some t => simp

theorem geofenceVisit_eq_with (acc : GeofencePass) (m : MemberLocation) :
    geofenceVisit memberId pos rangeRadius alertHistory perm now acc m =
      geofenceVisitWith exactDistance memberId pos rangeRadius alertHistory perm now acc m := by
  by_cases h : alertDue memberId pos rangeRadius alertHistory now m
  · rw [geofenceVisit_due memberId pos rangeRadius alertHistory perm now acc m h,
      geofenceVisitWith_due exactDistance memberId pos rangeRadius alertHistory perm now acc m h]
    rfl
  · rw [geofenceVisit_not_due memberId pos rangeRadius alertHistory perm now acc m h,
      geofenceVisitWith_not_due exactDistance memberId pos rangeRadius alertHistory perm now
        acc m h]

theorem geofencePass_eq_with (my : Option SelfPosition) (locs : List MemberLocation) :
    geofencePass memberId my locs rangeRadius alertHistory perm now =
      geofencePassWith exactDistance memberId my locs rangeRadius alertHistory perm now := by
  cases my with
  | none => rfl
  | some p =>
    have : geofenceVisit memberId p rangeRadius alertHistory perm now =
        geofenceVisitWith exactDistance memberId p rangeRadius alertHistory perm now := by
      funext acc m
      exact geofenceVisit_eq_with memberId p rangeRadius alertHistory perm now acc m
    simp only [geofencePass, geofencePassWith, this]

end

/-! ## Lemmas on the sample data with the computed distance -/

theorem exactDistance_memberNorth (i n : String) (d : ℝ) (b : Bool)
    (h0 : 0 ≤ d) (h1 : d ≤ 18000000) :
    exactDistance origin.lat origin.lng (memberNorth i n d b).lat (memberNorth i n d b).lng =
      JsNumber.real d := by
  unfold exactDistance
  rw [distance_origin_memberNorth i n d b h0 h1]

theorem geofencePassWith_single_due (distanceOf : DistanceFn) (memberId : String)
    (pos : SelfPosition) (rangeRadius : ℝ) (alertHistory : AlertHistory) (perm : String)
    (now : Int) (m : MemberLocation)
    (h : alertDueWith distanceOf memberId pos rangeRadius alertHistory now m) :
    geofencePassWith distanceOf memberId (some pos) [m] rangeRadius alertHistory perm now =
      { newAlerts := [alertRecord now (distanceOf pos.lat pos.lng m.lat m.lng).value m]
        alertHistory := Function.update alertHistory m.memberId (some now)
        notifications :=
          if perm = "granted" then
            [alertNotification (distanceOf pos.lat pos.lng m.lat m.lng).value m]
          else [] } := by
  simp [geofencePassWith,
    geofenceVisitWith_due distanceOf memberId pos rangeRadius alertHistory perm now _ m h]

/-! ## Lemmas on the busy session -/

theorem geofencePass_threeMembers (h : AlertHistory) (now : Int)
    (h1 : 120000 < now - (h "m1").getD 0) (h2 : 120000 < now - (h "m2").getD 0)
    (h3 : 120000 < now - (h "m3").getD 0) :
    (geofencePass "me" (some origin) threeMembers 100 h "granted" now).newAlerts.map
        (fun a => (a.memberId, a.timestamp)) = [("m1", now), ("m2", now), ("m3", now)] ∧
    (geofencePass "me" (some origin) threeMembers 100 h "granted" now).alertHistory "m1" =
      some now ∧
    (geofencePass "me" (some origin) threeMembers 100 h "granted" now).alertHistory "m2" =
      some now ∧
    (geofencePass "me" (some origin) threeMembers 100 h "granted" now).alertHistory "m3" =
      some now := by
  have d1 : alertDue "me" origin 100 h now (memberNorth "m1" "Ann" 150 true) := by
    rw [alertDue_memberNorth _ _ _ _ _ _ _ (by norm_num) (by norm_num)]
    exact ⟨by decide, by norm_num, h1⟩
  have d2 : alertDue "me" origin 100 h now (memberNorth "m2" "Bob" 200 true) := by
    rw [alertDue_memberNorth _ _ _ _ _ _ _ (by norm_num) (by norm_num)]
    exact ⟨by decide, by norm_num, h2⟩
  have d3 : alertDue "me" origin 100 h now (memberNorth "m3" "Cy" 250 true) := by
    rw [alertDue_memberNorth _ _ _ _ _ _ _ (by norm_num) (by norm_num)]
    exact ⟨by decide, by norm_num, h3⟩
  refine ⟨?_, ?_, ?_, ?_⟩
  · rw [geofencePass_newAlerts]
    simp only [threeMembers, List.filter_cons, d1, d2, d3, decide_True, if_true,
      List.filter_nil, List.map_cons, List.map_nil]
    simp [alertRecord, memberNorth]
  · rw [geofencePass_alertHistory, if_pos]
    exact ⟨_, by simp [threeMembers], d1, rfl⟩
  · rw [geofencePass_alertHistory, if_pos]
    exact ⟨_, by simp [threeMembers], d2, rfl⟩
  · rw [geofencePass_alertHistory, if_pos]
    exact ⟨_, by simp [threeMembers], d3, rfl⟩

theorem busyRun_queue :
    (runAlerts "me" initialAlertState busyRun).geofenceAlerts.map
        (fun a => (a.memberId, a.timestamp)) =
      [("m1", 1700000200000), ("m2", 1700000200000), ("m3", 1700000200000),
        ("m1", 1700000000000), ("m2", 1700000000000)] := by
  obtain ⟨n1, a1, a2, a3⟩ := geofencePass_threeMembers emptyHistory 1700000000000
    (by simp [emptyHistory]) (by simp [emptyHistory]) (by simp [emptyHistory])
  obtain ⟨n2, _, _, _⟩ := geofencePass_threeMembers
    (geofencePass "me" (some origin) threeMembers 100 emptyHistory "granted"
      1700000000000).alertHistory 1700000200000
    (by rw [a1]; simp) (by rw [a2]; simp) (by rw [a3]; simp)
  have l1 : (geofencePass "me" (some origin) threeMembers 100 emptyHistory
      "granted" 1700000000000).newAlerts.length = 3 := by
    have := congrArg List.length n1
    simpa using this
  have l2 : (geofencePass "me" (some origin) threeMembers 100
      (geofencePass "me" (some origin) threeMembers 100 emptyHistory "granted"
        1700000000000).alertHistory "granted" 1700000200000).newAlerts.length = 3 := by
    have := congrArg List.length n2
    simpa using this
  have p1 : (geofencePass "me" (some origin) threeMembers 100 emptyHistory
      "granted" 1700000000000).newAlerts.length > 0 := by rw [l1]; norm_num
  have p2 : (geofencePass "me" (some origin) threeMembers 100
      (geofencePass "me" (some origin) threeMembers 100 emptyHistory "granted"
        1700000000000).alertHistory "granted" 1700000200000).newAlerts.length > 0 := by
    rw [l2]; norm_num
  simp only [busyRun, runAlerts, stepAlert, pushAlerts, initialAlertState, if_pos p1, if_pos p2,
    List.append_nil]
  have t1 : List.take 5 (geofencePass "me" (some origin) threeMembers 100 emptyHistory
      "granted" 1700000000000).newAlerts =
      (geofencePass "me" (some origin) threeMembers 100 emptyHistory "granted"
        1700000000000).newAlerts :=
    List.take_of_length_le (by rw [l1]; norm_num)
  rw [t1, List.map_take, List.map_append, n1, n2]
  rfl

/-! ## Lemmas on response handling and generated member ids -/

theorem handleResponse_object (ok : Bool) (fields : List (String × Json)) :
    handleResponse ok (.ok (.object fields)) =
      if ok = true ∧ truthy (fields.lookup "success") = true then
        Except.ok (Json.object fields)
      else Except.error (Thrown.error (errorArgument (fields.lookup "error"))) := by
  cases ok <;> cases hs : truthy (fields.lookup "success") <;>
    simp [handleResponse, Json.field, hs]

theorem generateMemberId_random_injective (now : Int) (random1 random2 : String)
    (h : generateMemberId now random1 = generateMemberId now random2) : random1 = random2 := by
  have hd := congrArg String.data h
  simp only [generateMemberId, String.data_append] at hd
  have := List.append_cancel_left hd
  exact String.ext this

/-! ## Claims -/

/-- C2: from the empty history, along any sequence of evaluations and dismissals whose
evaluation clock never decreases and whose snapshots have pairwise distinct member ids,
any two records emitted for the same member id have timestamps more than 120000 ms apart
(the later one minus the earlier one). -/
theorem cooldown_invariant (memberId : String) (events : List AlertEvent)
    (hclock : (events.filterMap AlertEvent.clock).Pairwise (· ≤ ·))
    (hunique : ∀ e ∈ events, e.UniqueIds) :
    (emittedAlong memberId initialAlertState events).Pairwise
      (fun a b => a.memberId = b.memberId → 120000 < b.timestamp - a.timestamp) :=
  emittedAlong_cooldown memberId events initialAlertState hclock hunique

/-- C2 (witness): the sample session emits two records for "m1", at clock values 200000 and
320001, and they are more than 120000 ms apart. -/
theorem cooldown_invariant_witness :
    (emittedAlong "me" initialAlertState sampleRun).length = 2 ∧
    (emittedAlong "me" initialAlertState sampleRun).Pairwise
      (fun a b => a.memberId = b.memberId → 120000 < b.timestamp - a.timestamp) :=
  ⟨by rw [sampleRun_emitted]; rfl,
   cooldown_invariant "me" sampleRun (by simp [sampleRun, AlertEvent.clock])
    (by simp [sampleRun, AlertEvent.UniqueIds])⟩

/-- C5: starting from the empty alert queue, after every finite sequence of geofence
evaluations (whatever number of records each emits) and dismissals, the alert queue holds
at most 5 records. -/
theorem alert_queue_bounded (memberId : String) (events : List AlertEvent) :
    (runAlerts memberId initialAlertState events).geofenceAlerts.length ≤ 5 :=
  runAlerts_length_le memberId events initialAlertState (by simp [initialAlertState])

/-- C6: on the queue reached from the initial state by any sequence of evaluations and
dismissals, an evaluation leaves the first 5 elements of its new records followed by the
previous queue, and leaves the queue unchanged when it emits no record; when the evaluation
clock never decreases along the sequence, the timestamps of the reached queue are
non-increasing from head to tail. -/
theorem queue_newest_first (memberId : String) (events : List AlertEvent)
    (my : Option SelfPosition) (locs : List MemberLocation) (r : ℝ) (p : String) (now : Int) :
    (stepAlert memberId (runAlerts memberId initialAlertState events)
        (.evaluate my locs r p now)).geofenceAlerts =
      ((geofencePass memberId my locs r
          (runAlerts memberId initialAlertState events).alertHistory p now).newAlerts ++
        (runAlerts memberId initialAlertState events).geofenceAlerts).take 5 ∧
    ((geofencePass memberId my locs r
        (runAlerts memberId initialAlertState events).alertHistory p now).newAlerts = [] →
      (stepAlert memberId (runAlerts memberId initialAlertState events)
        (.evaluate my locs r p now)).geofenceAlerts =
      (runAlerts memberId initialAlertState events).geofenceAlerts) ∧
    ((events.filterMap AlertEvent.clock).Pairwise (· ≤ ·) →
      (runAlerts memberId initialAlertState events).geofenceAlerts.Pairwise
        (fun a b => b.timestamp ≤ a.timestamp)) := by
  refine ⟨?_, ?_, ?_⟩
  · exact pushAlerts_eq_take _ _ (runAlerts_length_le memberId events initialAlertState (by simp [initialAlertState]))
  · intro h
    simp [stepAlert, h, pushAlerts]
  · intro hp
    cases hk : events.filterMap AlertEvent.clock with
    | nil =>
      exact runAlerts_newest_first memberId events initialAlertState 0
        (by simp [initialAlertState]) (by simp [initialAlertState]) (by simp [hk]) hp
    | cons c cs =>
      refine runAlerts_newest_first memberId events initialAlertState c
        (by simp [initialAlertState]) (by simp [initialAlertState]) ?_ hp
      rw [hk] at hp ⊢
      intro k hkm
      rcases List.mem_cons.mp hkm with rfl | h
      · exact le_rfl
      · exact (List.pairwise_cons.mp hp).1 k h

/-- C7: dismissing the entry at index `i < length` of the alert queue yields the queue with
exactly that entry removed, the entries before and after it in their previous order, and
leaves the alert history unchanged; hence every later evaluation gives the same result as
without the dismissal, and while `now - t ≤ 120000` for the history entry `t` of the
dismissed member, an evaluation after the dismissal emits no record for that member. -/
theorem dismiss_frame (memberId : String) (s : AlertState) (i : Nat)
    (hi : i < s.geofenceAlerts.length) :
    (stepAlert memberId s (.dismiss i)).geofenceAlerts =
      s.geofenceAlerts.take i ++ s.geofenceAlerts.drop (i + 1) ∧
    (stepAlert memberId s (.dismiss i)).geofenceAlerts.length + 1 = s.geofenceAlerts.length ∧
    (stepAlert memberId s (.dismiss i)).alertHistory = s.alertHistory ∧
    (∀ (my : Option SelfPosition) (locs : List MemberLocation) (r : ℝ) (p : String) (now : Int),
      geofencePass memberId my locs r (stepAlert memberId s (.dismiss i)).alertHistory p now =
        geofencePass memberId my locs r s.alertHistory p now) ∧
    (∀ (my : Option SelfPosition) (locs : List MemberLocation) (r : ℝ) (p : String)
        (now t : Int),
      s.alertHistory (s.geofenceAlerts.get ⟨i, hi⟩).memberId = some t → now - t ≤ 120000 →
      ∀ a ∈ (geofencePass memberId my locs r
          (stepAlert memberId s (.dismiss i)).alertHistory p now).newAlerts,
        a.memberId ≠ (s.geofenceAlerts.get ⟨i, hi⟩).memberId) := by
  have hq : (stepAlert memberId s (.dismiss i)).geofenceAlerts = s.geofenceAlerts.eraseIdx i :=
    dismissAlert_eq_eraseIdx i s.geofenceAlerts
  refine ⟨?_, ?_, rfl, fun _ _ _ _ _ => rfl, ?_⟩
  · rw [hq, List.eraseIdx_eq_take_drop_succ]
  · rw [hq, List.length_eraseIdx, if_pos hi]
    omega
  · intro my locs r p now t ht hgap a ha hc
    obtain ⟨k, hk, _, hdue, _⟩ := mem_emittedBy memberId s (.evaluate my locs r p now) a ha
    simp only [AlertEvent.clock, Option.some.injEq] at hk
    rw [hc, ht, Option.getD_some, ← hk] at hdue
    omega

/-- C7 (witness): in the sample state, dismissing index 0 leaves the alert of "m2" in the
queue and an evaluation at clock value 260000, inside the cooldown window of "m1", still
emits no record for "m1". -/
theorem dismiss_frame_witness :
    (stepAlert "me" sampleState (.dismiss 0)).geofenceAlerts =
      [{ memberId := "m2", displayName := "Bob", distance := 180, timestamp := 200000 }] ∧
    ∀ a ∈ (geofencePass "me" (some origin) [memberNorth "m1" "Ann" 150 true] 100
        (stepAlert "me" sampleState (.dismiss 0)).alertHistory "granted" 260000).newAlerts,
      a.memberId ≠ "m1" :=
  ⟨(dismiss_frame "me" sampleState 0 (by decide)).1,
   (dismiss_frame "me" sampleState 0 (by decide)).2.2.2.2 (some origin)
    [memberNorth "m1" "Ann" 150 true] 100 "granted" 260000 200000 rfl (by norm_num)⟩

/-- C8: for every snapshot, self position, range radius, alert history and clock value,
visiting an entry whose member id is the local member's or whose `sharingEnabled` is false
changes nothing (no record, no history write, no notification), whatever its distance; the
evaluation of a snapshot containing such an entry equals the evaluation of the snapshot
without it. -/
theorem skip_self_and_paused (memberId : String) (pos : SelfPosition) (rangeRadius : ℝ)
    (alertHistory : AlertHistory) (perm : String) (now : Int) (acc : GeofencePass)
    (m : MemberLocation) (before after : List MemberLocation)
    (h : m.memberId = memberId ∨ m.sharingEnabled = false) :
    geofenceVisit memberId pos rangeRadius alertHistory perm now acc m = acc ∧
    geofencePass memberId (some pos) (before ++ m :: after) rangeRadius alertHistory perm now =
      geofencePass memberId (some pos) (before ++ after) rangeRadius alertHistory perm now ∧
    (∀ a ∈ (geofencePass memberId (some pos) (before ++ m :: after) rangeRadius alertHistory
        perm now).newAlerts,
      a.memberId ≠ memberId ∧
      ∃ l ∈ before ++ after, l.memberId = a.memberId ∧ l.sharingEnabled = true) ∧
    (geofencePass memberId (some pos) (before ++ m :: after) rangeRadius alertHistory
        perm now).alertHistory memberId = alertHistory memberId := by
  have hv : ∀ acc', geofenceVisit memberId pos rangeRadius alertHistory perm now acc' m = acc' := by
    intro acc'
    unfold geofenceVisit
    rw [if_pos h]
  have hpass : geofencePass memberId (some pos) (before ++ m :: after) rangeRadius alertHistory
      perm now =
      geofencePass memberId (some pos) (before ++ after) rangeRadius alertHistory perm now := by
    unfold geofencePass
    have h1 : (before ++ m :: after).length ≠ 0 := by simp
    simp only [h1, if_false]
    by_cases h2 : (before ++ after).length = 0
    · have hb : before = [] := by
        cases before with
        | nil => rfl
        | cons b bs => simp at h2
      have ha : after = [] := by
        cases after with
        | nil => rfl
        | cons b bs => simp at h2
      subst hb ha
      simp [hv]
    · simp only [h2, if_false]
      rw [List.foldl_append, List.foldl_cons, hv, ← List.foldl_append]
  refine ⟨hv acc, hpass, ?_, ?_⟩
  · intro a ha
    rw [hpass] at ha
    simp only [geofencePass_newAlerts, List.mem_map, List.mem_filter, decide_eq_true_eq] at ha
    obtain ⟨l, ⟨hl, hdue⟩, rfl⟩ := ha
    exact ⟨hdue.1, l, hl, rfl, hdue.2.1⟩
  · rw [geofencePass_alertHistory, if_neg]
    rintro ⟨l, _, hdue, hl⟩
    exact hdue.1 hl

/-- C8 (witness): the local member "me" itself, listed 5000 m away with range radius 100,
and a paused member at the same place, produce nothing. -/
theorem skip_self_and_paused_witness :
    geofencePass "me" (some origin)
        ([] ++ memberNorth "me" "Me" 5000 true :: [memberNorth "m2" "Bob" 5000 false])
        100 emptyHistory "granted" 200000 =
      { newAlerts := [], alertHistory := emptyHistory, notifications := [] } := by
  have h1 := (skip_self_and_paused "me" origin 100 emptyHistory "granted" 200000
    { newAlerts := [], alertHistory := emptyHistory, notifications := [] }
    (memberNorth "me" "Me" 5000 true) [] [memberNorth "m2" "Bob" 5000 false] (Or.inl rfl)).2.1
  have h2 := (skip_self_and_paused "me" origin 100 emptyHistory "granted" 200000
    { newAlerts := [], alertHistory := emptyHistory, notifications := [] }
    (memberNorth "m2" "Bob" 5000 false) [] [] (Or.inr rfl)).2.1
  rw [h1, h2]
  rfl

/-- C10: over exact real arithmetic, for all coordinates (valid or not),
`calculateDistance lat1 lng1 lat2 lng2 = calculateDistance lat2 lng2 lat1 lng1`. -/
theorem calculateDistance_symm (lat1 lng1 lat2 lng2 : ℝ) :
    calculateDistance lat1 lng1 lat2 lng2 = calculateDistance lat2 lng2 lat1 lng1 := by
  unfold calculateDistance
  have e1 : (lat1 - lat2) * Real.pi / 180 / 2 = -((lat2 - lat1) * Real.pi / 180 / 2) := by ring
  have e2 : (lng1 - lng2) * Real.pi / 180 / 2 = -((lng2 - lng1) * Real.pi / 180 / 2) := by ring
  simp only [e1, e2, Real.sin_neg]
  have : ∀ x y u v : ℝ, -x * -x + u * v * -y * -y = x * x + v * u * y * y := by intros; ring
  rw [this]

/-- C11: over exact real arithmetic, for every longitude `lng` (valid or not),
`calculateDistance 0 lng 0 (lng + 0.001)` equals `6371000 * 0.001 * π / 180` and lies between
110.2 and 112.2 metres. -/
theorem calculateDistance_equator_milli_degree (lng : ℝ) :
    calculateDistance 0 lng 0 (lng + 0.001) = 6371000 * 0.001 * Real.pi / 180 ∧
    110.2 ≤ calculateDistance 0 lng 0 (lng + 0.001) ∧
    calculateDistance 0 lng 0 (lng + 0.001) ≤ 112.2 := by
  have h := calculateDistance_equator lng 0.001 (by norm_num) (by norm_num)
  have h3 := Real.pi_gt_three
  have h4 := Real.pi_le_four
  have hlo := Real.pi_gt_d2
  have hhi := Real.pi_lt_d2
  rw [h]
  refine ⟨by ring, ?_, ?_⟩ <;> nlinarith

/-- C12: for a non-null `expiresAt` with `remaining = expiresAt - currentTime > 0`,
`formatCountdown` returns "Hh Mm" with `H = remaining / 3600000` and
`M = (remaining mod 3600000) / 60000` when `remaining ≥ 3600000`; "Mm Ss" with
`M = remaining / 60000` and `S = (remaining mod 60000) / 1000` when
`60000 ≤ remaining < 3600000`; and "Ss" with `S = remaining / 1000` when `remaining < 60000`;
every printed `M` and `S` is between 0 and 59. -/
theorem formatCountdown_spec (currentTime expiry : Int) (h : 0 < expiry - currentTime) :
    (3600000 ≤ expiry - currentTime →
      formatCountdown currentTime (some expiry) =
        some (toString ((expiry - currentTime) / 3600000) ++ "h " ++
          toString ((expiry - currentTime) % 3600000 / 60000) ++ "m") ∧
      0 ≤ (expiry - currentTime) % 3600000 / 60000 ∧
      (expiry - currentTime) % 3600000 / 60000 ≤ 59) ∧
    (60000 ≤ expiry - currentTime → expiry - currentTime < 3600000 →
      formatCountdown currentTime (some expiry) =
        some (toString ((expiry - currentTime) / 60000) ++ "m " ++
          toString ((expiry - currentTime) % 60000 / 1000) ++ "s") ∧
      0 ≤ (expiry - currentTime) / 60000 ∧ (expiry - currentTime) / 60000 ≤ 59 ∧
      0 ≤ (expiry - currentTime) % 60000 / 1000 ∧
      (expiry - currentTime) % 60000 / 1000 ≤ 59) ∧
    (expiry - currentTime < 60000 →
      formatCountdown currentTime (some expiry) =
        some (toString ((expiry - currentTime) / 1000) ++ "s") ∧
      0 ≤ (expiry - currentTime) / 1000 ∧ (expiry - currentTime) / 1000 ≤ 59) := by
  have hf := formatCountdown_of_pos currentTime expiry h
  refine ⟨fun h1 => ⟨?_, by omega, by omega⟩,
    fun h1 h2 => ⟨?_, by omega, by omega, by omega, by omega⟩,
    fun h1 => ⟨?_, by omega, by omega⟩⟩
  · rw [hf, if_pos h1]
  · rw [hf, if_neg (by omega), if_pos h1]
  · rw [hf, if_neg (by omega), if_neg (by omega)]

/-- C12 (witness): 3661000 ms remaining gives "1h 1m", 61000 ms gives "1m 1s" and 500 ms
gives "0s". -/
theorem formatCountdown_spec_witness :
    formatCountdown 1000 (some 3662000) = some "1h 1m" ∧
    formatCountdown 1000 (some 62000) = some "1m 1s" ∧
    formatCountdown 1000 (some 1500) = some "0s" :=
  ⟨((formatCountdown_spec 1000 3662000 (by decide)).1 (by decide)).1,
   ((formatCountdown_spec 1000 62000 (by decide)).2.1 (by decide) (by decide)).1,
   ((formatCountdown_spec 1000 1500 (by decide)).2.2 (by decide)).1⟩

/-- C13: for a non-null `expiresAt`, `formatCountdown` returns "Expired" if and only if
`currentTime ≥ expiresAt`, and under exactly that condition the expiry check sets the error
'This group has expired.' (and schedules a navigation), leaving the view unchanged otherwise;
for `expiresAt = null`, `formatCountdown` returns null and the expiry check leaves the view
unchanged, so it sets no error and schedules no navigation, at every clock value. -/
theorem expired_iff_deadline_passed (currentTime expiry : Int) (v : MapView) :
    (formatCountdown currentTime (some expiry) = some "Expired" ↔ currentTime ≥ expiry) ∧
    (currentTime ≥ expiry →
      (expiryCheck (some expiry) currentTime v).error = "This group has expired." ∧
      (expiryCheck (some expiry) currentTime v).navigations =
        v.navigations ++ [{ delay := 2000, path := "/" }]) ∧
    (¬ currentTime ≥ expiry → expiryCheck (some expiry) currentTime v = v) ∧
    formatCountdown currentTime none = none ∧
    expiryCheck none currentTime v = v := by
  refine ⟨⟨?_, ?_⟩, ?_, ?_, rfl, rfl⟩
  · intro h
    by_contra hc
    exact formatCountdown_ne_expired currentTime expiry (by omega) h
  · intro h
    simp only [formatCountdown]
    rw [if_pos (by omega)]
  · intro h
    simp only [expiryCheck]
    rw [if_pos h]
    exact ⟨rfl, rfl⟩
  · intro h
    simp only [expiryCheck]
    rw [if_neg h]

/-- C14: with `d = floor((currentTime - timestamp) / 1000)`, `getRelativeTime` returns
"Just now" when `d < 5` (negative `d` included), "d seconds ago" when `5 ≤ d < 60`,
"1 minute ago" when `60 ≤ d < 120`, "N minutes ago" with `N = floor(d / 60)` when
`120 ≤ d < 3600`, "1 hour ago" when `3600 ≤ d < 7200`, and "N hours ago" with
`N = floor(d / 3600)` otherwise; the `N` of a plural phrase is at least 2. -/
theorem getRelativeTime_spec (currentTime timestamp d : Int)
    (hd : 1000 * d ≤ currentTime - timestamp ∧ currentTime - timestamp < 1000 * d + 1000) :
    (d < 5 → getRelativeTime currentTime timestamp = "Just now") ∧
    (5 ≤ d → d < 60 →
      getRelativeTime currentTime timestamp = toString d ++ " seconds ago") ∧
    (60 ≤ d → d < 120 → getRelativeTime currentTime timestamp = "1 minute ago") ∧
    (120 ≤ d → d < 3600 → ∃ n : Int, 60 * n ≤ d ∧ d < 60 * n + 60 ∧ 2 ≤ n ∧
      getRelativeTime currentTime timestamp = toString n ++ " minutes ago") ∧
    (3600 ≤ d → d < 7200 → getRelativeTime currentTime timestamp = "1 hour ago") ∧
    (7200 ≤ d → ∃ n : Int, 3600 * n ≤ d ∧ d < 3600 * n + 3600 ∧ 2 ≤ n ∧
      getRelativeTime currentTime timestamp = toString n ++ " hours ago") := by
  have e : Int.fdiv (currentTime - timestamp) 1000 = d := by
    rw [fdiv_pos_eq _ _ (by norm_num)]; omega
  have e60 : Int.fdiv d 60 = d / 60 := fdiv_pos_eq _ _ (by norm_num)
  have e3600 : Int.fdiv d 3600 = d / 3600 := fdiv_pos_eq _ _ (by norm_num)
  simp only [getRelativeTime, e, e60, e3600]
  refine ⟨fun h => ?_, fun h1 h2 => ?_, fun h1 h2 => ?_, fun h1 h2 => ?_, fun h1 h2 => ?_,
    fun h => ?_⟩
  · rw [if_pos h]
  · rw [if_neg (by omega), if_pos h2]
  · rw [if_neg (by omega), if_neg (by omega), if_pos h2]
  · refine ⟨d / 60, by omega, by omega, by omega, ?_⟩
    rw [if_neg (by omega), if_neg (by omega), if_neg (by omega), if_pos h2]
  · rw [if_neg (by omega), if_neg (by omega), if_neg (by omega), if_neg (by omega), if_pos h2]
  · refine ⟨d / 3600, by omega, by omega, by omega, ?_⟩
    rw [if_neg (by omega), if_neg (by omega), if_neg (by omega), if_neg (by omega),
      if_neg (by omega)]

/-- C14 (witness): 3 s ago gives "Just now", 90 s ago gives "1 minute ago", 4000 s ago gives
"1 hour ago", and a timestamp 2 s in the future gives "Just now". -/
theorem getRelativeTime_spec_witness :
    getRelativeTime 3000 0 = "Just now" ∧
    getRelativeTime 90000 0 = "1 minute ago" ∧
    getRelativeTime 4000000 0 = "1 hour ago" ∧
    getRelativeTime 0 1500 = "Just now" :=
  ⟨(getRelativeTime_spec 3000 0 3 (by decide)).1 (by decide),
   (getRelativeTime_spec 90000 0 90 (by decide)).2.2.1 (by decide) (by decide),
   (getRelativeTime_spec 4000000 0 4000 (by decide)).2.2.2.2.1 (by decide) (by decide),
   (getRelativeTime_spec 0 1500 (-2) (by decide)).1 (by decide)⟩

/-- C15 (as amended): for every run of clock ticks with a non-null `expiresAt`, ticks before
the deadline change nothing; at the first tick whose time is `≥ expiresAt` the expiry check
sets the error state and schedules one navigation with a 2000 ms delay; and every later tick
past expiry schedules one more, so the number of navigations scheduled by the run equals the
number of its ticks whose time is `≥ expiresAt`. -/
theorem expiry_navigation_per_tick (expiry : Int) (before after : List Int) (t : Int)
    (v : MapView) (hbefore : ∀ u ∈ before, u < expiry) (ht : t ≥ expiry) :
    expiryTicks (some expiry) before v = v ∧
    (expiryTicks (some expiry) (before ++ [t]) v).error = "This group has expired." ∧
    (expiryTicks (some expiry) (before ++ [t]) v).navigations =
      v.navigations ++ [{ delay := 2000, path := "/" }] ∧
    (expiryTicks (some expiry) (before ++ t :: after) v).navigations =
      v.navigations ++ List.replicate (1 + (after.filter (fun u => u ≥ expiry)).length)
        { delay := 2000, path := "/" } := by
  have h1 := expiryTicks_of_lt expiry before v hbefore
  have h2 : expiryTicks (some expiry) (before ++ [t]) v =
      { v with
        error := "This group has expired."
        navigations := v.navigations ++ [{ delay := 2000, path := "/" }] } := by
    rw [expiryTicks_append, h1]
    simp only [expiryTicks, List.foldl_cons, List.foldl_nil]
    exact expiryCheck_of_ge expiry t v ht
  refine ⟨h1, by rw [h2], by rw [h2], ?_⟩
  have e : before ++ t :: after = (before ++ [t]) ++ after := by simp
  rw [e, expiryTicks_append, expiryTicks_navigations, h2]
  simp [List.replicate_succ, Nat.add_comm 1]

/-- C15 (witness): with `expiresAt = 10000`, the ticks 8000 and 9000 change nothing and the
tick 10000 sets the error and schedules one navigation. -/
theorem expiry_navigation_per_tick_witness :
    expiryTicks (some 10000) [8000, 9000] initialMapView = initialMapView ∧
    (expiryTicks (some 10000) ([8000, 9000] ++ [10000]) initialMapView).error =
      "This group has expired." ∧
    (expiryTicks (some 10000) ([8000, 9000] ++ [10000]) initialMapView).navigations =
      initialMapView.navigations ++ [{ delay := 2000, path := "/" }] :=
  ⟨(expiry_navigation_per_tick 10000 [8000, 9000] [] 10000 initialMapView
      (by decide) (by decide)).1,
   (expiry_navigation_per_tick 10000 [8000, 9000] [] 10000 initialMapView
      (by decide) (by decide)).2.1,
   (expiry_navigation_per_tick 10000 [8000, 9000] [] 10000 initialMapView
      (by decide) (by decide)).2.2.1⟩

/-- C15 (counterexample to the claim as stated): with `expiresAt = 10000`, the ticks 9000,
10000 and 11000 schedule two navigations, the second one at the tick 11000, which comes
before the first navigation fires at 10000 + 2000. -/
theorem expiry_navigation_scheduled_twice :
    (expiryTicks (some 10000) [9000, 10000] initialMapView).navigations =
      [{ delay := 2000, path := "/" }] ∧
    (expiryTicks (some 10000) [9000, 10000, 11000] initialMapView).navigations =
      [{ delay := 2000, path := "/" }, { delay := 2000, path := "/" }] ∧
    (11000 : Int) < 10000 + 2000 := by
  decide

/-- C16 (as amended): when a snapshot fetch fails with a message that includes 'not found',
the error state is set and exactly one navigation-away request is issued by that failure,
with a delay of 2000 ms; every further fetch that fails the same way issues one more, so a
sequence of completed fetches issues as many navigation requests as it has not-found
failures. -/
theorem not_found_navigation_per_failure (message : String) (results : List PollResult)
    (v : MapView) (h : jsIncludes message "not found" = true) :
    (fetchLocations (.failure message) v).error = "Group not found or expired. Redirecting..." ∧
    (fetchLocations (.failure message) v).navigations =
      v.navigations ++ [{ delay := 2000, path := "/" }] ∧
    (fetchLocations (.failure message) v).locations = v.locations ∧
    (fetchAll results v).navigations =
      v.navigations ++ List.replicate (results.filter PollResult.isNotFound).length
        { delay := 2000, path := "/" } := by
  refine ⟨?_, ?_, ?_, fetchAll_navigations results v⟩
  · simp only [fetchLocations]
    rw [if_pos h]
  · simp only [fetchLocations]
    rw [if_pos h]
  · simp only [fetchLocations]
    rw [if_pos h]

/-- C16 (witness): the failure 'Group not found' on the initial view sets the error and
issues one navigation request with delay 2000. -/
theorem not_found_navigation_per_failure_witness :
    (fetchLocations (.failure "Group not found") initialMapView).error =
      "Group not found or expired. Redirecting..." ∧
    (fetchLocations (.failure "Group not found") initialMapView).navigations =
      initialMapView.navigations ++ [{ delay := 2000, path := "/" }] :=
  ⟨(not_found_navigation_per_failure "Group not found" [] initialMapView (by decide)).1,
   (not_found_navigation_per_failure "Group not found" [] initialMapView (by decide)).2.1⟩

/-- C16 (counterexample to the claim as stated): two fetches that both fail with
'Group not found' issue two navigation requests. -/
theorem not_found_navigation_issued_twice :
    (fetchAll [.failure "Group not found", .failure "Group not found"]
      initialMapView).navigations =
      [{ delay := 2000, path := "/" }, { delay := 2000, path := "/" }] := by
  decide

/-- C17: on a successful poll the held snapshot becomes exactly the fetched list, whatever
the previous snapshot was; on every failure, of any message, the held snapshot is unchanged;
and a failure whose message is not classified as not found also leaves the error state
unchanged and schedules no navigation. -/
theorem poll_last_known_good (v : MapView) (groupLocations : List MemberLocation)
    (message : String) :
    (fetchLocations (.success groupLocations) v).locations = groupLocations ∧
    (fetchLocations (.failure message) v).locations = v.locations ∧
    (jsIncludes message "not found" = false →
      (fetchLocations (.failure message) v).error = v.error ∧
      (fetchLocations (.failure message) v).navigations = v.navigations) := by
  refine ⟨rfl, ?_, ?_⟩
  · simp only [fetchLocations]
    split <;> rfl
  · intro h
    simp only [fetchLocations]
    rw [if_neg (by simp [h])]
    exact ⟨rfl, rfl⟩

/-- C17 (witness): the failure 'Network down' is not classified as not found and leaves the
error state and the scheduled navigations of the initial view unchanged. -/
theorem poll_last_known_good_witness :
    (fetchLocations (.failure "Network down") initialMapView).error = initialMapView.error ∧
    (fetchLocations (.failure "Network down") initialMapView).navigations =
      initialMapView.navigations :=
  (poll_last_known_good initialMapView [] "Network down").2.2 (by decide)

/-- C18: for every accepted position fix `(lat, lng)`, the self position becomes
`{lat, lng}`; if sharing is enabled exactly one report is sent, the `updateLocation` request
for the current group id and member id carrying that `lat` and `lng`; if sharing is disabled
no report is sent; and a failed report only adds a console message, every state field and
every issued request or navigation staying as it was. -/
theorem position_fix_forwarding (groupId memberId : String) (lat lng : ℝ) (v : MapView)
    (message : String) :
    (onPositionFix groupId memberId lat lng v).myLocation = some { lat := lat, lng := lng } ∧
    (v.sharingEnabled = true →
      (onPositionFix groupId memberId lat lng v).requests =
        v.requests ++ [updateLocation groupId memberId lat lng true] ∧
      (updateLocation groupId memberId lat lng true).url =
        API_BASE_URL ++ "/groups/" ++ groupId ++ "/locations" ∧
      (updateLocation groupId memberId lat lng true).memberId = memberId ∧
      (updateLocation groupId memberId lat lng true).lat = lat ∧
      (updateLocation groupId memberId lat lng true).lng = lng) ∧
    (v.sharingEnabled = false →
      (onPositionFix groupId memberId lat lng v).requests = v.requests) ∧
    onReportFailure message v =
      { v with consoleErrors := v.consoleErrors ++ ["Failed to update location: " ++ message] } := by
  refine ⟨?_, ?_, ?_, rfl⟩
  · simp only [onPositionFix]
    split <;> rfl
  · intro h
    simp only [onPositionFix]
    rw [if_pos h]
    exact ⟨rfl, rfl, rfl, rfl, rfl⟩
  · intro h
    simp only [onPositionFix]
    rw [if_neg (by simp [h])]

/-- C18 (witness): on the initial view, where sharing is enabled, a fix sends one report;
after sharing has been switched off, a fix sends none. -/
theorem position_fix_forwarding_witness :
    (onPositionFix "G1" "me" 1 2 initialMapView).requests =
      initialMapView.requests ++ [updateLocation "G1" "me" 1 2 true] ∧
    (onPositionFix "G1" "me" 1 2 { initialMapView with sharingEnabled := false }).requests =
      [] :=
  ⟨((position_fix_forwarding "G1" "me" 1 2 initialMapView "").2.1 rfl).1,
   (position_fix_forwarding "G1" "me" 1 2 { initialMapView with sharingEnabled := false }
      "").2.2.1 rfl⟩

/-- C19: the position-acquisition state starts as 'pending'; every successful fix puts it
in 'granted', in particular a fix received in 'granted' leaves it in 'granted'; and once the
state is not 'pending', no sequence of events (effect run with or without geolocation
support, fix, error, sharing toggle, failed report) returns it to 'pending'. -/
theorem permission_never_back_to_pending (supported : Bool) (groupId memberId : String)
    (v : MapView) (lat lng : ℝ) (events : List PositionEvent) :
    initialMapView.permissionState = PermissionState.pending ∧
    (stepPosition supported groupId memberId v (.fix lat lng)).permissionState =
      PermissionState.granted ∧
    (v.permissionState ≠ PermissionState.pending →
      (runPosition supported groupId memberId v events).permissionState ≠
        PermissionState.pending) := by
  refine ⟨rfl, ?_, ?_⟩
  · simp only [stepPosition, onPositionFix]
    split <;> rfl
  · intro h
    induction events generalizing v with
    | nil => exact h
    | cons e es ih =>
      exact ih _ (stepPosition_not_pending supported groupId memberId v e h)

/-- C19 (witness): from the initial view, a fix, a timeout error, a sharing toggle and
another fix end in 'granted', and the state after the first fix is already not 'pending'. -/
theorem permission_never_back_to_pending_witness :
    (runPosition true "G1" "me" (onPositionFix "G1" "me" 1 2 initialMapView)
      [.error 3, .toggleSharing, .fix 1 2]).permissionState ≠ PermissionState.pending :=
  (permission_never_back_to_pending true "G1" "me" (onPositionFix "G1" "me" 1 2 initialMapView)
    1 2 [.error 3, .toggleSharing, .fix 1 2]).2.2 (by simp [onPositionFix, initialMapView])

/-- C22 (as amended): when `notificationPermission` is 'granted', the notifications an
evaluation requests are, in order, one per emitted record: for the record of entry `m` the
body is `m.displayName ++ " has left the tracking range! (" ++ d ++ "m away)"` with `d` the
distance rounded to the nearest integer and the tag is `"geofence-" ++ m.memberId`, and no
notification is requested for an entry that emits no record; when the permission is not
'granted', records are emitted as before and no notification is requested. -/
theorem notification_per_alert (memberId : String) (pos : SelfPosition)
    (locations : List MemberLocation) (rangeRadius : ℝ) (alertHistory : AlertHistory)
    (perm : String) (now : Int) :
    (perm = "granted" →
      (geofencePass memberId (some pos) locations rangeRadius alertHistory perm
          now).notifications =
        (locations.filter
          (fun m => decide (alertDue memberId pos rangeRadius alertHistory now m))).map
          (fun m =>
            { title := "⚠️ Geofence Alert"
              body := m.displayName ++ " has left the tracking range! (" ++
                toString (mathRound (calculateDistance pos.lat pos.lng m.lat m.lng)) ++
                "m away)"
              icon := "/vite.svg"
              tag := "geofence-" ++ m.memberId }) ∧
      (geofencePass memberId (some pos) locations rangeRadius alertHistory perm
          now).notifications.length =
        (geofencePass memberId (some pos) locations rangeRadius alertHistory perm
          now).newAlerts.length) ∧
    (perm ≠ "granted" →
      (geofencePass memberId (some pos) locations rangeRadius alertHistory perm
          now).notifications = []) ∧
    (geofencePass memberId (some pos) locations rangeRadius alertHistory perm now).newAlerts =
      (locations.filter
        (fun m => decide (alertDue memberId pos rangeRadius alertHistory now m))).map
        (fun m => alertRecord now (calculateDistance pos.lat pos.lng m.lat m.lng) m) ∧
    (∀ x : ℝ, -(1 / 2) < (mathRound x : ℝ) - x ∧ (mathRound x : ℝ) - x ≤ 1 / 2) := by
  refine ⟨?_, ?_, geofencePass_newAlerts memberId pos rangeRadius alertHistory perm now locations,
    mathRound_nearest⟩
  · intro hp
    rw [geofencePass_notifications, geofencePass_newAlerts, if_pos hp]
    refine ⟨rfl, ?_⟩
    simp
  · intro hp
    rw [geofencePass_notifications, if_neg hp]

/-- C22 (witness): with the permission granted, the alert for "Ann" 150 m away requests the
one notification with body "Ann has left the tracking range! (150m away)" and tag
"geofence-m1". -/
theorem notification_per_alert_witness :
    (geofencePass "me" (some origin) [memberNorth "m1" "Ann" 150 true] 100 emptyHistory
      "granted" 200000).notifications =
      [{ title := "⚠️ Geofence Alert"
         body := "Ann has left the tracking range! (150m away)"
         icon := "/vite.svg"
         tag := "geofence-m1" }] := by
  have hd := distance_origin_memberNorth "m1" "Ann" 150 true (by norm_num) (by norm_num)
  have hr : mathRound (150 : ℝ) = 150 := by simpa using mathRound_intCast 150
  have d1 : alertDue "me" origin 100 emptyHistory 200000 (memberNorth "m1" "Ann" 150 true) := by
    rw [alertDue_memberNorth _ _ _ _ _ _ _ (by norm_num) (by norm_num)]
    exact ⟨by decide, by norm_num, by simp [emptyHistory]⟩
  rw [((notification_per_alert "me" origin [memberNorth "m1" "Ann" 150 true] 100 emptyHistory
    "granted" 200000).1 rfl).1]
  simp only [List.filter_cons, d1, decide_True, if_true, List.filter_nil, List.map_cons,
    List.map_nil, hd, hr]
  simp only [memberNorth]
  rfl

/-- C22 (counterexample to the claim as stated): with the permission 'default', the
evaluation emits a record for "m1" and requests no notification. -/
theorem alert_without_notification :
    (geofencePass "me" (some origin) [memberNorth "m1" "Ann" 150 true] 100 emptyHistory
      "default" 200000).newAlerts.length = 1 ∧
    (geofencePass "me" (some origin) [memberNorth "m1" "Ann" 150 true] 100 emptyHistory
      "default" 200000).notifications = [] := by
  have d1 : alertDue "me" origin 100 emptyHistory 200000 (memberNorth "m1" "Ann" 150 true) := by
    rw [alertDue_memberNorth _ _ _ _ _ _ _ (by norm_num) (by norm_num)]
    exact ⟨by decide, by norm_num, by simp [emptyHistory]⟩
  constructor
  · rw [geofencePass_single_due "me" origin 100 emptyHistory "default" 200000 _ d1]
    rfl
  · rw [geofencePass_notifications]
    exact if_neg (show ¬ ("default" : String) = "granted" by decide)

/-- C23 (as amended): flipping the sharing toggle while a position watch is active makes one
`clearWatch` call on the active watch and then starts a new watch, whose callback forwards
fixes according to the new `sharingEnabled` value; `watchIdRef` holds the new watch, so
position fixes keep arriving across the toggle. -/
theorem toggle_restarts_watch (freshId activeId : Nat) (w : PositionWatch)
    (hactive : w.watchIdRef = some activeId) :
    (toggleSharing freshId w).calls =
      w.calls ++ [WatchCall.clearWatch activeId,
        WatchCall.watchPosition freshId (!w.sharingEnabled)] ∧
    (toggleSharing freshId w).watchIdRef = some freshId ∧
    (toggleSharing freshId w).sharingEnabled = !w.sharingEnabled := by
  simp [toggleSharing, watchEffect, watchCleanup, hactive]

/-- C23 (witness): with the watch 7 active and sharing on, a toggle clears watch 7 and starts
watch 8 with forwarding off. -/
theorem toggle_restarts_watch_witness :
    (toggleSharing 8
        { sharingEnabled := true, watchIdRef := some 7,
          calls := [WatchCall.watchPosition 7 true] }).calls =
      [WatchCall.watchPosition 7 true] ++
        [WatchCall.clearWatch 7, WatchCall.watchPosition 8 (!true)] :=
  (toggle_restarts_watch 8 7
    { sharingEnabled := true, watchIdRef := some 7, calls := [WatchCall.watchPosition 7 true] }
    rfl).1

/-- C23 (counterexample to the claim as stated): with the watch 7 active, a toggle from on
to off and a toggle from off to on each make a `clearWatch` call on the active watch and
start a new watch. -/
theorem toggle_cancels_active_watch :
    WatchCall.clearWatch 7 ∈
      (toggleSharing 8
        { sharingEnabled := true, watchIdRef := some 7,
          calls := [WatchCall.watchPosition 7 true] }).calls ∧
    WatchCall.watchPosition 8 false ∈
      (toggleSharing 8
        { sharingEnabled := true, watchIdRef := some 7,
          calls := [WatchCall.watchPosition 7 true] }).calls ∧
    WatchCall.clearWatch 7 ∈
      (toggleSharing 8
        { sharingEnabled := false, watchIdRef := some 7,
          calls := [WatchCall.watchPosition 7 false] }).calls ∧
    WatchCall.watchPosition 8 true ∈
      (toggleSharing 8
        { sharingEnabled := false, watchIdRef := some 7,
          calls := [WatchCall.watchPosition 7 false] }).calls := by
  decide

/-- C24: if an evaluation at clock value `t1` emits a record for member `x`, and in every
snapshot evaluated afterwards (dismissals in between allowed) each entry of `x` has
`sharingEnabled = false`, then the history entry of `x` stays `t1`; and an evaluation then
run at `t2` with `t2 - t1 ≤ 120000`, on any snapshot, in particular one where `x` is sharing
again and beyond the range radius, emits no record for `x`. -/
theorem pause_keeps_cooldown (memberId : String) (s : AlertState)
    (my1 : Option SelfPosition) (locs1 : List MemberLocation) (r1 : ℝ) (p1 : String) (t1 : Int)
    (x : String) (events : List AlertEvent)
    (my2 : Option SelfPosition) (locs2 : List MemberLocation) (r2 : ℝ) (p2 : String) (t2 : Int)
    (hemit : ∃ a ∈ emittedBy memberId s (.evaluate my1 locs1 r1 p1 t1), a.memberId = x)
    (hpaused : ∀ e ∈ events, e.PausedFor x)
    (hwindow : t2 - t1 ≤ 120000) :
    (runAlerts memberId (stepAlert memberId s (.evaluate my1 locs1 r1 p1 t1)) events).alertHistory
        x = some t1 ∧
    ∀ a ∈ emittedBy memberId
        (runAlerts memberId (stepAlert memberId s (.evaluate my1 locs1 r1 p1 t1)) events)
        (.evaluate my2 locs2 r2 p2 t2),
      a.memberId ≠ x := by
  obtain ⟨a, ha, hax⟩ := hemit
  obtain ⟨k, hk, _, _, hh⟩ := mem_emittedBy memberId s (.evaluate my1 locs1 r1 p1 t1) a ha
  simp only [AlertEvent.clock, Option.some.injEq] at hk
  rw [hax, ← hk] at hh
  have hkeep := runAlerts_alertHistory_of_paused memberId x events
    (stepAlert memberId s (.evaluate my1 locs1 r1 p1 t1)) hpaused
  rw [hh] at hkeep
  refine ⟨hkeep, ?_⟩
  intro b hb hbx
  obtain ⟨k2, hk2, _, hdue, _⟩ := mem_emittedBy memberId _ (.evaluate my2 locs2 r2 p2 t2) b hb
  simp only [AlertEvent.clock, Option.some.injEq] at hk2
  rw [hbx, hkeep, Option.getD_some, ← hk2] at hdue
  omega

/-- C24 (witness): "m1" alerts at clock value 200000, is paused in the snapshot evaluated at
250000, and is sharing and 150 m away again at 300000: its history entry is still 200000 and
the evaluation at 300000 emits no record for it. -/
theorem pause_keeps_cooldown_witness :
    (runAlerts "me"
        (stepAlert "me" initialAlertState
          (.evaluate (some origin) [memberNorth "m1" "Ann" 150 true] 100 "granted" 200000))
        [.evaluate (some origin) [memberNorth "m1" "Ann" 150 false] 100 "granted"
          250000]).alertHistory "m1" = some 200000 ∧
    ∀ a ∈ emittedBy "me"
        (runAlerts "me"
          (stepAlert "me" initialAlertState
            (.evaluate (some origin) [memberNorth "m1" "Ann" 150 true] 100 "granted" 200000))
          [.evaluate (some origin) [memberNorth "m1" "Ann" 150 false] 100 "granted" 250000])
        (.evaluate (some origin) [memberNorth "m1" "Ann" 150 true] 100 "granted" 300000),
      a.memberId ≠ "m1" := by
  have d1 : alertDue "me" origin 100 initialAlertState.alertHistory 200000
      (memberNorth "m1" "Ann" 150 true) := by
    rw [alertDue_memberNorth _ _ _ _ _ _ _ (by norm_num) (by norm_num)]
    exact ⟨by decide, by norm_num, by simp [initialAlertState, emptyHistory]⟩
  have hemit : ∃ a ∈ emittedBy "me" initialAlertState
      (.evaluate (some origin) [memberNorth "m1" "Ann" 150 true] 100 "granted" 200000),
      a.memberId = "m1" := by
    simp only [emittedBy]
    rw [geofencePass_single_due "me" origin 100 _ "granted" 200000 _ d1]
    exact ⟨_, List.mem_singleton_self _, rfl⟩
  exact pause_keeps_cooldown "me" initialAlertState (some origin)
    [memberNorth "m1" "Ann" 150 true] 100 "granted" 200000 "m1"
    [.evaluate (some origin) [memberNorth "m1" "Ann" 150 false] 100 "granted" 250000]
    (some origin) [memberNorth "m1" "Ann" 150 true] 100 "granted" 300000 hemit
    (by simp [AlertEvent.PausedFor, memberNorth]) (by norm_num)

/-- C25: for two snapshots that differ only in the `updatedAt` values of their entries,
the evaluations with the same local member, self position, range radius, alert history,
notification permission and clock value give the same records, the same history and the same
notifications, and from the same alert state they give the same alert queue. -/
theorem alerts_ignore_updatedAt (memberId : String) (my : Option SelfPosition)
    (locs1 locs2 : List MemberLocation) (r : ℝ) (h : AlertHistory) (p : String) (now : Int)
    (s : AlertState) (hsame : SameUpToUpdatedAt locs1 locs2) :
    geofencePass memberId my locs1 r h p now = geofencePass memberId my locs2 r h p now ∧
    stepAlert memberId s (.evaluate my locs1 r p now) =
      stepAlert memberId s (.evaluate my locs2 r p now) := by
  have key : ∀ h', geofencePass memberId my locs1 r h' p now =
      geofencePass memberId my locs2 r h' p now := by
    intro h'
    rw [← geofencePass_map_withUpdatedAt memberId my locs1,
      ← geofencePass_map_withUpdatedAt memberId my locs2]
    unfold SameUpToUpdatedAt at hsame
    rw [hsame]
  refine ⟨key h, ?_⟩
  simp only [stepAlert, key]

/-- C25 (witness): the snapshot with "m1" 150 m away and the same snapshot with `updatedAt`
changed to 999 give the same evaluation from the initial state at clock value 200000. -/
theorem alerts_ignore_updatedAt_witness :
    stepAlert "me" initialAlertState
        (.evaluate (some origin) [memberNorth "m1" "Ann" 150 true] 100 "granted" 200000) =
      stepAlert "me" initialAlertState
        (.evaluate (some origin) [(memberNorth "m1" "Ann" 150 true).withUpdatedAt 999] 100
          "granted" 200000) :=
  (alerts_ignore_updatedAt "me" (some origin) [memberNorth "m1" "Ann" 150 true]
    [(memberNorth "m1" "Ann" 150 true).withUpdatedAt 999] 100 emptyHistory "granted" 200000
    initialAlertState rfl).2

/-- C26 (the code at the failing input): for the snapshot of the sharing member "m1" and the
paused member "m2", the only marker rendered is the one of "m1", while the positions given
to `fitBounds` are those of both entries, the paused "m2" included. -/
theorem fit_bounds_include_paused_member :
    (memberNorth "m2" "Bob" 5000 false).sharingEnabled = false ∧
    (renderMarkers "me"
        [memberNorth "m1" "Ann" 150 true, memberNorth "m2" "Bob" 5000 false]).map
        (fun m => (m.key, m.position)) =
      [("m1", ((memberNorth "m1" "Ann" 150 true).lat, (memberNorth "m1" "Ann" 150 true).lng))] ∧
    fitBoundsPositions [memberNorth "m1" "Ann" 150 true, memberNorth "m2" "Bob" 5000 false] =
      some
        [((memberNorth "m1" "Ann" 150 true).lat, (memberNorth "m1" "Ann" 150 true).lng),
         ((memberNorth "m2" "Bob" 5000 false).lat, (memberNorth "m2" "Bob" 5000 false).lng)] := by
  refine ⟨rfl, ?_, ?_⟩
  · rw [renderMarkers_sharing_only]
    simp [memberNorth]
  · rw [fitBoundsPositions_all _ (by simp)]
    rfl

/-- C27 (as amended): when two snapshot fetches are in flight and both succeed, the held
snapshot after both completions is the snapshot of the completion that arrived last,
whatever the order of issue: if the earlier-issued fetch completes after the later-issued
one, its snapshot is the one held, and no completion is discarded. -/
theorem last_completion_wins (v : MapView) (earlier later : Completion)
    (a b : List MemberLocation) (hissue : earlier.issued < later.issued)
    (hearlier : earlier.result = .success a) (hlater : later.result = .success b) :
    (completeAll [later, earlier] v).locations = a ∧
    (completeAll [earlier, later] v).locations = b := by
  have _ := hissue
  simp [completeAll, fetchAll, hearlier, hlater, fetchLocations]

/-- C27 (witness): the fetch issued first returns the snapshot with "Ann", the fetch issued
second returns the snapshot with "Bob"; when the second completes first, the snapshot held
after both completions is the one with "Ann". -/
theorem last_completion_wins_witness :
    (completeAll
        [{ issued := 2, result := .success [memberNorth "m2" "Bob" 150 true] },
         { issued := 1, result := .success [memberNorth "m1" "Ann" 150 true] }]
        initialMapView).locations = [memberNorth "m1" "Ann" 150 true] :=
  (last_completion_wins initialMapView
    { issued := 1, result := .success [memberNorth "m1" "Ann" 150 true] }
    { issued := 2, result := .success [memberNorth "m2" "Bob" 150 true] }
    [memberNorth "m1" "Ann" 150 true] [memberNorth "m2" "Bob" 150 true]
    (by decide) rfl rfl).1

/-- C27 (counterexample to the claim as stated): the later-issued fetch (issue 2, snapshot
with "Bob") completes first and the earlier-issued fetch (issue 1, snapshot with "Ann")
completes second; the snapshot held after both is the earlier-issued one, which differs
from the later-issued one. -/
theorem stale_completion_overwrites :
    (completeAll
        [{ issued := 2, result := .success [memberNorth "m2" "Bob" 150 true] },
         { issued := 1, result := .success [memberNorth "m1" "Ann" 150 true] }]
        initialMapView).locations = [memberNorth "m1" "Ann" 150 true] ∧
    [memberNorth "m1" "Ann" 150 true] ≠ [memberNorth "m2" "Bob" 150 true] := by
  refine ⟨rfl, ?_⟩
  intro h
  have h2 := congrArg (fun l => l.map MemberLocation.memberId) h
  simp [memberNorth] at h2

/-- C30: for every sequence of effect runs, fixes, errors, sharing toggles and failed
reports from the initial view, every position report sent carries `sharingEnabled = true`;
and a fix received while sharing is off sends no report at all, so the endpoint is never
told that the member has paused. -/
theorem reports_always_sharing (supported : Bool) (groupId memberId : String)
    (events : List PositionEvent) (v : MapView) (lat lng : ℝ) :
    (∀ q ∈ (runPosition supported groupId memberId initialMapView events).requests,
      q.sharingEnabled = true) ∧
    (v.sharingEnabled = false →
      (onPositionFix groupId memberId lat lng v).requests = v.requests) := by
  refine ⟨runPosition_requests_sharing supported groupId memberId events initialMapView
    (by simp [initialMapView]), ?_⟩
  intro h
  simp only [onPositionFix]
  rw [if_neg (by simp [h])]

/-- C30 (witness): a fix, a toggle to paused, a fix, a toggle back and a fix send two
reports, both with `sharingEnabled = true`. -/
theorem reports_always_sharing_witness :
    (runPosition true "G1" "me" initialMapView
      [.mount, .fix 1 2, .toggleSharing, .fix 3 4, .toggleSharing, .fix 5 6]).requests.length
      = 2 ∧
    ∀ q ∈ (runPosition true "G1" "me" initialMapView
      [.mount, .fix 1 2, .toggleSharing, .fix 3 4, .toggleSharing, .fix 5 6]).requests,
      q.sharingEnabled = true :=
  ⟨rfl, (reports_always_sharing true "G1" "me"
    [.mount, .fix 1 2, .toggleSharing, .fix 3 4, .toggleSharing, .fix 5 6]
    initialMapView 0 0).1⟩



/-- C1: in one geofence evaluation with a self position, for every distance computation,
every range radius, every alert history and every clock value of a running clock
(`Date.now()` is beyond 120000), visiting a snapshot entry `m` pushes a new record if and
only if `m` is not the local member, `m` is sharing, the computed distance is strictly
greater than `rangeRadius`, and the history has no entry for `m` or one more than 120000 ms
before `now`; otherwise it pushes nothing. The records of the whole evaluation are those of
the entries passing this test, in snapshot order. An entry at distance exactly `rangeRadius`
(or with a `NaN` distance) pushes nothing, and a breaching entry without history pushes
one. -/
theorem geofence_alert_iff (distanceOf : DistanceFn) (memberId : String) (pos : SelfPosition)
    (rangeRadius : ℝ) (alertHistory : AlertHistory) (perm : String) (now : Int)
    (acc : GeofencePass) (m : MemberLocation) (locations : List MemberLocation)
    (hclock : 120000 < now) :
    ((geofenceVisitWith distanceOf memberId pos rangeRadius alertHistory perm now acc
          m).newAlerts =
        acc.newAlerts ++ [alertRecord now (distanceOf pos.lat pos.lng m.lat m.lng).value m] ↔
      (m.memberId ≠ memberId ∧ m.sharingEnabled = true ∧
        (distanceOf pos.lat pos.lng m.lat m.lng).exceeds rangeRadius ∧
        (alertHistory m.memberId = none ∨
          ∃ t : Int, alertHistory m.memberId = some t ∧ 120000 < now - t))) ∧
    ((geofenceVisitWith distanceOf memberId pos rangeRadius alertHistory perm now acc
          m).newAlerts = acc.newAlerts ↔
      ¬ (m.memberId ≠ memberId ∧ m.sharingEnabled = true ∧
        (distanceOf pos.lat pos.lng m.lat m.lng).exceeds rangeRadius ∧
        (alertHistory m.memberId = none ∨
          ∃ t : Int, alertHistory m.memberId = some t ∧ 120000 < now - t))) ∧
    (geofencePassWith distanceOf memberId (some pos) locations rangeRadius alertHistory perm
        now).newAlerts =
      (locations.filter (fun l =>
        decide (SpecAlertCondition distanceOf memberId pos rangeRadius alertHistory now l))).map
        (fun l => alertRecord now (distanceOf pos.lat pos.lng l.lat l.lng).value l) ∧
    (distanceOf pos.lat pos.lng m.lat m.lng = JsNumber.real rangeRadius →
      (geofenceVisitWith distanceOf memberId pos rangeRadius alertHistory perm now acc
        m).newAlerts = acc.newAlerts) ∧
    (distanceOf pos.lat pos.lng m.lat m.lng = JsNumber.nan →
      (geofenceVisitWith distanceOf memberId pos rangeRadius alertHistory perm now acc
        m).newAlerts = acc.newAlerts) ∧
    (m.memberId ≠ memberId → m.sharingEnabled = true →
      (distanceOf pos.lat pos.lng m.lat m.lng).exceeds rangeRadius →
      alertHistory m.memberId = none →
      (geofenceVisitWith distanceOf memberId pos rangeRadius alertHistory perm now acc
        m).newAlerts =
        acc.newAlerts ++
          [alertRecord now (distanceOf pos.lat pos.lng m.lat m.lng).value m]) := by
  have hspec : ∀ l, alertDueWith distanceOf memberId pos rangeRadius alertHistory now l ↔
      SpecAlertCondition distanceOf memberId pos rangeRadius alertHistory now l :=
    fun l => alertDueWith_iff_spec distanceOf memberId pos rangeRadius alertHistory now l hclock
  have hdue := geofenceVisitWith_due distanceOf memberId pos rangeRadius alertHistory perm now
    acc m
  have hnot := geofenceVisitWith_not_due distanceOf memberId pos rangeRadius alertHistory perm
    now acc m
  have hne : acc.newAlerts ≠
      acc.newAlerts ++ [alertRecord now (distanceOf pos.lat pos.lng m.lat m.lng).value m] := by
    intro h
    have := congrArg List.length h
    simp at this
  refine ⟨⟨?_, fun h => by rw [hdue ((hspec m).mpr h)]⟩,
    ⟨?_, fun h => by rw [hnot (fun hc => h ((hspec m).mp hc))]⟩, ?_, ?_, ?_, ?_⟩
  · intro h
    by_contra hc
    rw [hnot (fun hd => hc ((hspec m).mp hd))] at h
    exact hne h
  · intro h hc
    rw [hdue ((hspec m).mpr hc)] at h
    exact hne h.symm
  · rw [geofencePassWith_newAlerts]
    congr 1
    apply List.filter_congr
    intro l _
    simp only [decide_eq_decide]
    exact hspec l
  · intro h
    rw [hnot]
    rintro ⟨_, _, h3, _⟩
    rw [h] at h3
    exact lt_irrefl _ h3
  · intro h
    rw [hnot]
    rintro ⟨_, _, h3, _⟩
    rw [h] at h3
    exact h3
  · intro h1 h2 h3 h4
    rw [hdue ((hspec m).mpr ⟨h1, h2, h3, Or.inl h4⟩)]

/-- C1 (witness): at clock value 1700000000000 with the empty history and
`rangeRadius = 100`, with the distance computed without rounding, the sharing member "m1" at
150 m produces a record and the sharing member "m2" at exactly 100 m produces none. -/
theorem geofence_alert_iff_witness :
    (geofenceVisitWith exactDistance "me" origin 100 emptyHistory "granted" 1700000000000
        { newAlerts := [], alertHistory := emptyHistory, notifications := [] }
        (memberNorth "m1" "Ann" 150 true)).newAlerts =
      [] ++ [alertRecord 1700000000000
        (exactDistance origin.lat origin.lng (memberNorth "m1" "Ann" 150 true).lat
          (memberNorth "m1" "Ann" 150 true).lng).value
        (memberNorth "m1" "Ann" 150 true)] ∧
    (geofenceVisitWith exactDistance "me" origin 100 emptyHistory "granted" 1700000000000
        { newAlerts := [], alertHistory := emptyHistory, notifications := [] }
        (memberNorth "m2" "Bob" 100 true)).newAlerts = [] :=
  ⟨(geofence_alert_iff exactDistance "me" origin 100 emptyHistory "granted" 1700000000000
      { newAlerts := [], alertHistory := emptyHistory, notifications := [] }
      (memberNorth "m1" "Ann" 150 true) [] (by norm_num)).2.2.2.2.2 (by decide) rfl
      (by
        rw [exactDistance_memberNorth "m1" "Ann" 150 true (by norm_num) (by norm_num)]
        show (150 : ℝ) > 100
        norm_num)
      rfl,
   (geofence_alert_iff exactDistance "me" origin 100 emptyHistory "granted" 1700000000000
      { newAlerts := [], alertHistory := emptyHistory, notifications := [] }
      (memberNorth "m2" "Bob" 100 true) [] (by norm_num)).2.2.2.1
      (exactDistance_memberNorth "m2" "Bob" 100 true (by norm_num) (by norm_num))⟩

/-- C3: for every distance computation, if the evaluation at clock value `t1` emits a record
for member id `x`, then the next evaluation, run at `t2` on the history the first one left,
over a snapshot in which `x` occurs exactly once, as the entry `m` that is sharing and whose
computed distance `d` is greater than the range radius, emits no record for `x` when
`t2 - t1 ≤ 120000` and exactly one, the record of `m`, when `t2 - t1 ≥ 120001`. -/
theorem cooldown_boundary (distanceOf : DistanceFn) (memberId : String)
    (my1 : Option SelfPosition) (locs1 : List MemberLocation) (r1 : ℝ) (h0 : AlertHistory)
    (p1 : String) (t1 : Int)
    (pos2 : SelfPosition) (locs2 : List MemberLocation) (r2 : ℝ) (p2 : String) (t2 : Int)
    (x : String) (m : MemberLocation) (d : ℝ)
    (hemit : ∃ a ∈ (geofencePassWith distanceOf memberId my1 locs1 r1 h0 p1 t1).newAlerts,
      a.memberId = x)
    (honce : locs2.filter (fun l => l.memberId = x) = [m])
    (hshare : m.sharingEnabled = true)
    (hdist : distanceOf pos2.lat pos2.lng m.lat m.lng = JsNumber.real d)
    (hfar : r2 < d) :
    (t2 - t1 ≤ 120000 →
      (geofencePassWith distanceOf memberId (some pos2) locs2 r2
          (geofencePassWith distanceOf memberId my1 locs1 r1 h0 p1 t1).alertHistory p2
          t2).newAlerts.filter (fun a => a.memberId = x) = []) ∧
    (120001 ≤ t2 - t1 →
      (geofencePassWith distanceOf memberId (some pos2) locs2 r2
          (geofencePassWith distanceOf memberId my1 locs1 r1 h0 p1 t1).alertHistory p2
          t2).newAlerts.filter (fun a => a.memberId = x) = [alertRecord t2 d m]) := by
  obtain ⟨a, ha, hax⟩ := hemit
  obtain ⟨hne, hh⟩ := geofencePassWith_alertHistory_of_emitted distanceOf memberId r1 h0 p1 t1
    my1 locs1 a ha
  rw [hax] at hne hh
  have hmx : m.memberId = x := by
    have : m ∈ locs2.filter (fun l => l.memberId = x) := by rw [honce]; simp
    simpa using (List.mem_filter.mp this).2
  have hdue : alertDueWith distanceOf memberId pos2 r2
      (geofencePassWith distanceOf memberId my1 locs1 r1 h0 p1 t1).alertHistory t2 m ↔
      120000 < t2 - t1 := by
    unfold alertDueWith
    rw [hmx, hh, hdist]
    simp [hne, hshare, hfar, JsNumber.exceeds]
  rw [geofencePassWith_newAlerts_of_member, honce]
  constructor
  · intro h
    have : ¬ alertDueWith distanceOf memberId pos2 r2
        (geofencePassWith distanceOf memberId my1 locs1 r1 h0 p1 t1).alertHistory t2 m := by
      rw [hdue]; omega
    simp [this]
  · intro h
    have : alertDueWith distanceOf memberId pos2 r2
        (geofencePassWith distanceOf memberId my1 locs1 r1 h0 p1 t1).alertHistory t2 m := by
      rw [hdue]; omega
    simp [this, hdist, JsNumber.value]

/-- C3 (witness): with the distance computed without rounding, member "m1", 150 m away with
range radius 100, alerts at clock value 1700000000000 from the empty history; the next
evaluation at 1700000120000 emits nothing for "m1" and the next evaluation at 1700000120001
emits exactly one record for "m1". -/
theorem cooldown_boundary_witness :
    ((geofencePassWith exactDistance "me" (some origin) [memberNorth "m1" "Ann" 150 true] 100
          (geofencePassWith exactDistance "me" (some origin) [memberNorth "m1" "Ann" 150 true]
            100 emptyHistory "granted" 1700000000000).alertHistory "granted"
          1700000120000).newAlerts.filter
        (fun a => a.memberId = "m1") = []) ∧
    ((geofencePassWith exactDistance "me" (some origin) [memberNorth "m1" "Ann" 150 true] 100
          (geofencePassWith exactDistance "me" (some origin) [memberNorth "m1" "Ann" 150 true]
            100 emptyHistory "granted" 1700000000000).alertHistory "granted"
          1700000120001).newAlerts.filter
        (fun a => a.memberId = "m1") =
        [alertRecord 1700000120001 150 (memberNorth "m1" "Ann" 150 true)]) := by
  have hd := exactDistance_memberNorth "m1" "Ann" 150 true (by norm_num) (by norm_num)
  have d1 : alertDueWith exactDistance "me" origin 100 emptyHistory 1700000000000
      (memberNorth "m1" "Ann" 150 true) := by
    refine ⟨by decide, rfl, ?_, by simp [emptyHistory]⟩
    rw [hd]
    show (150 : ℝ) > 100
    norm_num
  have hemit : ∃ a ∈ (geofencePassWith exactDistance "me" (some origin)
      [memberNorth "m1" "Ann" 150 true] 100 emptyHistory "granted" 1700000000000).newAlerts,
      a.memberId = "m1" := by
    rw [geofencePassWith_single_due exactDistance "me" origin 100 emptyHistory "granted" 1700000000000
      _ d1]
    exact ⟨_, List.mem_singleton_self _, rfl⟩
  have honce : [memberNorth "m1" "Ann" 150 true].filter (fun l => l.memberId = "m1") =
      [memberNorth "m1" "Ann" 150 true] := by
    simp [memberNorth]
  exact ⟨(cooldown_boundary exactDistance "me" (some origin) [memberNorth "m1" "Ann" 150 true]
      100 emptyHistory "granted" 1700000000000 origin [memberNorth "m1" "Ann" 150 true] 100 "granted"
      1700000120000 "m1" (memberNorth "m1" "Ann" 150 true) 150 hemit honce rfl hd
      (by norm_num)).1 (by norm_num),
    (cooldown_boundary exactDistance "me" (some origin) [memberNorth "m1" "Ann" 150 true]
      100 emptyHistory "granted" 1700000000000 origin [memberNorth "m1" "Ann" 150 true] 100 "granted"
      1700000120001 "m1" (memberNorth "m1" "Ann" 150 true) 150 hemit honce rfl hd
      (by norm_num)).2 (by norm_num)⟩

/-- C4: for every distance computation and every evaluation at clock value `now`, each
emitted record carries `timestamp = now` and the member id and display name of a snapshot
entry, and the resulting history maps its member id to `now`; the records are one per
alerting entry, in snapshot order, so with the pairwise distinct member ids of a snapshot a
member that alerts gets exactly one record; every member id without a record in this
evaluation keeps its history entry, or its absence. Scenario: with `rangeRadius = 100`, the
empty history and the clock value of a running clock (`Date.now()` is beyond 120000), one
sharing non-self member at computed distance 150 gives exactly one record and history entry
`now`. -/
theorem alert_record_and_history (distanceOf : DistanceFn) (memberId : String)
    (my : Option SelfPosition) (locations : List MemberLocation) (rangeRadius : ℝ)
    (alertHistory : AlertHistory) (perm : String) (now : Int) :
    (∀ a ∈ (geofencePassWith distanceOf memberId my locations rangeRadius alertHistory perm
        now).newAlerts,
      a.timestamp = now ∧
      (∃ m ∈ locations, a.memberId = m.memberId ∧ a.displayName = m.displayName) ∧
      (geofencePassWith distanceOf memberId my locations rangeRadius alertHistory perm
        now).alertHistory a.memberId = some now) ∧
    (∀ pos : SelfPosition, my = some pos →
      (geofencePassWith distanceOf memberId my locations rangeRadius alertHistory perm
        now).newAlerts =
        (locations.filter (fun m =>
          decide (alertDueWith distanceOf memberId pos rangeRadius alertHistory now m))).map
          (fun m => alertRecord now (distanceOf pos.lat pos.lng m.lat m.lng).value m)) ∧
    ((locations.map MemberLocation.memberId).Nodup →
      ∀ a ∈ (geofencePassWith distanceOf memberId my locations rangeRadius alertHistory perm
          now).newAlerts,
        (geofencePassWith distanceOf memberId my locations rangeRadius alertHistory perm
          now).newAlerts.filter (fun b => b.memberId = a.memberId) = [a]) ∧
    (∀ x : String,
      (∀ a ∈ (geofencePassWith distanceOf memberId my locations rangeRadius alertHistory perm
          now).newAlerts, a.memberId ≠ x) →
      (geofencePassWith distanceOf memberId my locations rangeRadius alertHistory perm
        now).alertHistory x = alertHistory x) ∧
    (∀ (pos : SelfPosition) (m : MemberLocation), m.memberId ≠ memberId →
      m.sharingEnabled = true →
      distanceOf pos.lat pos.lng m.lat m.lng = JsNumber.real 150 →
      120000 < now →
      (geofencePassWith distanceOf memberId (some pos) [m] 100 emptyHistory perm
          now).newAlerts =
        [{ memberId := m.memberId, displayName := m.displayName, distance := 150,
           timestamp := now }] ∧
      (geofencePassWith distanceOf memberId (some pos) [m] 100 emptyHistory perm
          now).alertHistory m.memberId = some now) := by
  refine ⟨?_, ?_, ?_, ?_, ?_⟩
  · intro a ha
    have hh := geofencePassWith_alertHistory_of_emitted distanceOf memberId rangeRadius
      alertHistory perm now my locations a ha
    cases my with
    | none => simp [geofencePassWith] at ha
    | some pos =>
      simp only [geofencePassWith_newAlerts, List.mem_map, List.mem_filter,
        decide_eq_true_eq] at ha
      obtain ⟨m, ⟨hm, _⟩, rfl⟩ := ha
      exact ⟨rfl, ⟨m, hm, rfl, rfl⟩, hh.2⟩
  · intro pos hp
    rw [hp, geofencePassWith_newAlerts]
  · intro hu a ha
    cases my with
    | none => simp [geofencePassWith] at ha
    | some pos =>
      rw [geofencePassWith_newAlerts_of_member]
      simp only [geofencePassWith_newAlerts, List.mem_map, List.mem_filter,
        decide_eq_true_eq] at ha
      obtain ⟨m, ⟨hm, hdue⟩, rfl⟩ := ha
      have : (alertRecord now (distanceOf pos.lat pos.lng m.lat m.lng).value m).memberId =
          m.memberId := rfl
      rw [this, filter_memberId_of_nodup locations hu m hm]
      simp [hdue]
  · intro x hx
    cases my with
    | none => rfl
    | some pos =>
      rw [geofencePassWith_alertHistory, if_neg]
      rintro ⟨m, hm, hdue, hmx⟩
      apply hx (alertRecord now (distanceOf pos.lat pos.lng m.lat m.lng).value m) _ hmx
      rw [geofencePassWith_newAlerts]
      exact List.mem_map.mpr ⟨m, List.mem_filter.mpr ⟨hm, by simpa using hdue⟩, rfl⟩
  · intro pos m h1 h2 h3 h4
    have hdue : alertDueWith distanceOf memberId pos 100 emptyHistory now m := by
      refine ⟨h1, h2, ?_, by simpa [emptyHistory] using h4⟩
      rw [h3]
      show (150 : ℝ) > 100
      norm_num
    have hr : mathRound (150 : ℝ) = 150 := by simpa using mathRound_intCast 150
    rw [geofencePassWith_single_due distanceOf memberId pos 100 emptyHistory perm now m hdue]
    simp [alertRecord, h3, hr, JsNumber.value]

/-- C4 (witness): at clock value 1700000000000, with `rangeRadius = 100`, the empty history
and the distance computed without rounding, the sharing member "m1" at 150 m gives exactly
one record and history entry 1700000000000. -/
theorem alert_record_and_history_witness :
    (geofencePassWith exactDistance "me" (some origin) [memberNorth "m1" "Ann" 150 true] 100
      emptyHistory "default" 1700000000000).newAlerts =
      [{ memberId := "m1", displayName := "Ann", distance := 150,
         timestamp := 1700000000000 }] ∧
    (geofencePassWith exactDistance "me" (some origin) [memberNorth "m1" "Ann" 150 true] 100
      emptyHistory "default" 1700000000000).alertHistory "m1" = some 1700000000000 :=
  (alert_record_and_history exactDistance "me" (some origin)
    [memberNorth "m1" "Ann" 150 true] 100 emptyHistory "default" 1700000000000).2.2.2.2 origin
    (memberNorth "m1" "Ann" 150 true) (by decide) rfl
    (exactDistance_memberNorth "m1" "Ann" 150 true (by norm_num) (by norm_num))
    (by norm_num)

/-- C6 (witness): in the session `busyRun`, three members alert at clock value
1700000000000 and again at 1700000200000. The second evaluation leaves the first 5 elements
of its three new records followed by the three queued ones, so the reached queue is "m1",
"m2", "m3" at 1700000200000 followed by "m1", "m2" at 1700000000000, with non-increasing
timestamps. -/
theorem queue_newest_first_witness :
    (runAlerts "me" initialAlertState busyRun).geofenceAlerts.map
        (fun a => (a.memberId, a.timestamp)) =
      [("m1", 1700000200000), ("m2", 1700000200000), ("m3", 1700000200000),
        ("m1", 1700000000000), ("m2", 1700000000000)] ∧
    (stepAlert "me"
        (runAlerts "me" initialAlertState
          [.evaluate (some origin) threeMembers 100 "granted" 1700000000000])
        (.evaluate (some origin) threeMembers 100 "granted" 1700000200000)).geofenceAlerts =
      ((geofencePass "me" (some origin) threeMembers 100
          (runAlerts "me" initialAlertState
            [.evaluate (some origin) threeMembers 100 "granted" 1700000000000]).alertHistory
          "granted" 1700000200000).newAlerts ++
        (runAlerts "me" initialAlertState
          [.evaluate (some origin) threeMembers 100 "granted"
            1700000000000]).geofenceAlerts).take 5 ∧
    (runAlerts "me" initialAlertState busyRun).geofenceAlerts.Pairwise
      (fun a b => b.timestamp ≤ a.timestamp) :=
  ⟨busyRun_queue,
   (queue_newest_first "me" [.evaluate (some origin) threeMembers 100 "granted" 1700000000000]
      (some origin) threeMembers 100 "granted" 1700000200000).1,
   (queue_newest_first "me" busyRun none [] 0 "" 0).2.2
      (by simp [busyRun, AlertEvent.clock])⟩

/-- C20 (the code at the failing input): unmounting a view with the active watch 7, the poll
timer 3 and the clock timer 4 runs the cleanups in declaration order and makes the cancel
calls `clearWatch 7`, `clearInterval 4`, `clearWatch 7`, `clearInterval 3`: each timer is
cancelled once and the position watch twice, by the geolocation cleanup and again by the
unmount cleanup. -/
theorem teardown_clears_watch_twice :
    (teardown (mounted 7 3 4)).calls =
      [CancelCall.clearWatch 7, CancelCall.clearInterval 4, CancelCall.clearWatch 7,
        CancelCall.clearInterval 3] ∧
    (teardown (mounted 7 3 4)).calls.count (CancelCall.clearWatch 7) = 2 ∧
    (teardown (mounted 7 3 4)).calls.count (CancelCall.clearInterval 3) = 1 ∧
    (teardown (mounted 7 3 4)).calls.count (CancelCall.clearInterval 4) = 1 := by
  decide

/-- C21 (as amended): `handleResponse` returns a value only when `response.json()` resolves,
the response is ok and the `success` property of the parsed body is truthy, and then it
returns the parsed body unchanged. When `response.json()` rejects, that rejection is what
is thrown; when the parsed body is `null`, a `TypeError` is thrown. For a body that is a
JSON object, in every other case it throws an `Error` whose message is the body's `error`
property when that is a non-empty string, 'Request failed' when that property is missing or
falsy, and the string conversion of the property when it is a truthy value that is not a
string. -/
theorem handleResponse_spec (ok : Bool) (body : Except String Json) (data : Json)
    (fields : List (String × Json)) (reason : String) :
    (handleResponse ok body = Except.ok data ↔
      body = Except.ok data ∧ ok = true ∧
        ∃ v, data.field "success" = Except.ok v ∧ truthy v = true) ∧
    handleResponse ok (.error reason) = Except.error (Thrown.jsonRejection reason) ∧
    handleResponse ok (.ok .null) = Except.error Thrown.typeError ∧
    (¬ (ok = true ∧ truthy (fields.lookup "success") = true) →
      (∀ s : String, fields.lookup "error" = some (.string s) → s ≠ "" →
        handleResponse ok (.ok (.object fields)) = Except.error (Thrown.error (.string s)) ∧
        (Thrown.error (.string s)).message = some s) ∧
      (truthy (fields.lookup "error") = false →
        handleResponse ok (.ok (.object fields)) =
          Except.error (Thrown.error (.string "Request failed")) ∧
        (Thrown.error (.string "Request failed")).message = some "Request failed") ∧
      (∀ v : Json, fields.lookup "error" = some v → truthy (some v) = true →
        handleResponse ok (.ok (.object fields)) = Except.error (Thrown.error v))) := by
  refine ⟨?_, rfl, ?_, ?_⟩
  · constructor
    · intro h
      cases body with
      | error r => simp [handleResponse] at h
      | ok d =>
        cases ok with
        | false =>
          simp only [handleResponse] at h
          cases hf : d.field "error" <;> simp [hf] at h
        | true =>
          simp only [handleResponse] at h
          cases hs : d.field "success" with
          | error e => simp [hs] at h
          | ok v =>
            cases ht : truthy v with
            | false =>
              simp only [hs, ht] at h
              cases hf : d.field "error" <;> simp [hf] at h
            | true =>
              simp [hs, ht] at h
              subst h
              exact ⟨rfl, rfl, v, hs, ht⟩
    · rintro ⟨rfl, rfl, v, hv, ht⟩
      simp [handleResponse, hv, ht]
  · cases ok <;> simp [handleResponse, Json.field]
  · intro hc
    have hobj := handleResponse_object ok fields
    rw [if_neg hc] at hobj
    refine ⟨?_, ?_, ?_⟩
    · intro s hs hne
      rw [hobj, hs]
      refine ⟨?_, rfl⟩
      simp [errorArgument, truthy, hne]
    · intro hf
      rw [hobj]
      refine ⟨?_, rfl⟩
      cases he : fields.lookup "error" with
      | none => rfl
      | some v =>
        rw [he] at hf
        simp [errorArgument, hf]
    · intro v hv ht
      rw [hobj, hv]
      simp [errorArgument, ht]

/-- C21 (witness): a response that is not ok with the body
`{"success": false, "error": "Group not found"}` throws that message, an ok response with
the body `{"success": false}` throws 'Request failed', and an ok response with the body
`{"success": true}` returns the body. -/
theorem handleResponse_spec_witness :
    handleResponse false
        (.ok (.object [("success", .bool false), ("error", .string "Group not found")])) =
      Except.error (Thrown.error (.string "Group not found")) ∧
    handleResponse true (.ok (.object [("success", .bool false)])) =
      Except.error (Thrown.error (.string "Request failed")) ∧
    handleResponse true (.ok (.object [("success", .bool true)])) =
      Except.ok (.object [("success", .bool true)]) :=
  ⟨(((handleResponse_spec false (.ok .null) .null
      [("success", .bool false), ("error", .string "Group not found")] "").2.2.2
      (by simp)).1 "Group not found" (by simp [List.lookup]) (by decide)).1,
   (((handleResponse_spec true (.ok .null) .null [("success", .bool false)] "").2.2.2
      (by simp [List.lookup, truthy])).2.1 (by simp [List.lookup, truthy])).1,
   (handleResponse_spec true (.ok (.object [("success", .bool true)]))
      (.object [("success", .bool true)]) [] "").1.mpr
      ⟨rfl, rfl, some (.bool true), by simp [Json.field, List.lookup], rfl⟩⟩

/-- C21 (counterexample to the claim as stated): a failed response whose body is not JSON
makes `response.json()` reject, and that rejection is thrown, not an `Error` with the
message 'Request failed'; and for the body `{"success": false, "error": true}`, whose
`error` property is not a non-empty string, the thrown message is 'true'. -/
theorem handleResponse_other_throws :
    handleResponse false (.error "Unexpected token '<'") =
      Except.error (Thrown.jsonRejection "Unexpected token '<'") ∧
    Thrown.jsonRejection "Unexpected token '<'" ≠ Thrown.error (.string "Request failed") ∧
    handleResponse false (.ok (.object [("success", .bool false), ("error", .bool true)])) =
      Except.error (Thrown.error (.bool true)) ∧
    (Thrown.error (.bool true)).message = some "true" ∧
    ("true" : String) ≠ "Request failed" := by
  refine ⟨rfl, ?_, ?_, rfl, by decide⟩
  · intro h
    cases h
  · simp [handleResponse, Json.field, List.lookup, errorArgument, truthy]

/-- C28: with the key-value store as explicit state, when a non-empty member id is stored
`getMemberId` returns it and leaves the store unchanged; when none is stored it returns the
id `"member_" ++ now ++ "_" ++ random` built from the clock value and the random string of
this call, which is non-empty and differs for different random strings, and stores it under
the member-id key, leaving every other key alone. Hence a second call, whatever clock and
random values it draws, returns the id of the first, also when `setDisplayName` is called in
between. -/
theorem member_id_stable (now : Int) (random : String) (store : LocalStorage) :
    (∀ id : String, store MEMBER_ID_KEY = some id → id ≠ "" →
      getMemberId now random store = (id, store)) ∧
    (store MEMBER_ID_KEY = none →
      (getMemberId now random store).1 = "member_" ++ toString now ++ "_" ++ random ∧
      (getMemberId now random store).1 ≠ "" ∧
      (∀ random2 : String,
        (getMemberId now random2 store).1 = (getMemberId now random store).1 →
          random2 = random) ∧
      (getMemberId now random store).2 MEMBER_ID_KEY =
        some ("member_" ++ toString now ++ "_" ++ random) ∧
      ∀ key : String, key ≠ MEMBER_ID_KEY →
        (getMemberId now random store).2 key = store key) ∧
    (∀ (now2 : Int) (random2 : String),
      (getMemberId now2 random2 (getMemberId now random store).2).1 =
        (getMemberId now random store).1) ∧
    (∀ (now2 : Int) (random2 name : String),
      (getMemberId now2 random2 (setDisplayName name (getMemberId now random store).2)).1 =
        (getMemberId now random store).1) := by
  refine ⟨fun id hs hne => getMemberId_of_stored now random store id hs hne, ?_, ?_, ?_⟩
  · intro hs
    have hf : itemFalsy (store MEMBER_ID_KEY) = true := by simp [hs, itemFalsy]
    rw [getMemberId_of_absent now random store hf]
    refine ⟨rfl, generateMemberId_ne_empty now random, ?_, by simp [setItem, generateMemberId],
      ?_⟩
    · intro random2 h
      rw [getMemberId_of_absent now random2 store hf] at h
      exact generateMemberId_random_injective now random2 random h
    · intro key hk
      simp [setItem, Function.update, hk]
  · intro now2 random2
    obtain ⟨h1, h2⟩ := getMemberId_stored_after now random store
    rw [getMemberId_of_stored now2 random2 _ _ h1 h2]
  · intro now2 random2 name
    obtain ⟨h1, h2⟩ := getMemberId_stored_after now random store
    have hk : DISPLAY_NAME_KEY ≠ MEMBER_ID_KEY := by decide
    have h3 : setDisplayName name (getMemberId now random store).2 MEMBER_ID_KEY =
        some (getMemberId now random store).1 := by
      simp [setDisplayName, setItem, Function.update, Ne.symm hk, h1]
    rw [getMemberId_of_stored now2 random2 _ _ h3 h2]

/-- C28 (witness): on the empty store the call at clock value 1700 with random string "abc"
generates "member_1700_abc", a call at 1800 with "xyz" would generate "member_1800_xyz", and
a second call with these other values after the first returns "member_1700_abc"; on a store
holding "member_1_x" the call returns it. -/
theorem member_id_stable_witness :
    (getMemberId 1700 "abc" (fun _ => none)).1 = "member_1700_abc" ∧
    (getMemberId 1800 "xyz" (fun _ => none)).1 = "member_1800_xyz" ∧
    (getMemberId 1800 "xyz" (getMemberId 1700 "abc" (fun _ => none)).2).1 =
      "member_1700_abc" ∧
    getMemberId 1800 "xyz" (setItem (fun _ => none) MEMBER_ID_KEY "member_1_x") =
      ("member_1_x", setItem (fun _ => none) MEMBER_ID_KEY "member_1_x") :=
  ⟨((member_id_stable 1700 "abc" (fun _ => none)).2.1 rfl).1.trans (by decide),
   ((member_id_stable 1800 "xyz" (fun _ => none)).2.1 rfl).1.trans (by decide),
   ((member_id_stable 1700 "abc" (fun _ => none)).2.2.1 1800 "xyz").trans
     (((member_id_stable 1700 "abc" (fun _ => none)).2.1 rfl).1.trans (by decide)),
   (member_id_stable 1800 "xyz" (setItem (fun _ => none) MEMBER_ID_KEY "member_1_x")).1
     "member_1_x" (by simp [setItem]) (by decide)⟩

end LiveTracker
